import Mathlib

/-!
Verification of the gameplay simulation core of the classic-bounce-game
repository (a browser 3D platformer: Ball / Level / Game classes).

The JavaScript sources are shallowly embedded: numbers are exact rationals
(the claims under study are not floating-point specific; the one place where
non-finite IEEE values matter, the ball body's velocity, is embedded with an
explicit `JsNum` type carrying NaN and the two infinities).  Mutations of
`this` become functional updates of explicit state records.  Calls into the
external collaborators (THREE scene graph, CANNON world, HUD) are modeled by
the fields they read or write on the game state (mesh positions, counters of
render / physics-step calls); pure material-color and geometry churn on the
renderer side is outside the modeled state, as the spec places rendering
outside the core.
-/

namespace Bounce

/-- A 3D vector of exact rationals, modeling the `{x, y, z}` number triples
used for positions and sizes throughout the sources. -/
structure Vec3 where
  x : ℚ
  y : ℚ
  z : ℚ
deriving DecidableEq, Repr

/-- Squared Euclidean distance between two points. -/
def Vec3.distSq (p q : Vec3) : ℚ :=
  (p.x - q.x) * (p.x - q.x) + (p.y - q.y) * (p.y - q.y) + (p.z - q.z) * (p.z - q.z)

/-- Models the JavaScript test `vectorDifference.length() < r`: for a
non-negative bound `r` this is equivalent to comparing squared distance
against `r * r`, which stays inside ℚ. -/
def withinDist (p q : Vec3) (r : ℚ) : Bool :=
  decide (Vec3.distSq p q < r * r)

/-- A JavaScript number as it can appear in the physics body's velocity:
finite, NaN, or one of the two infinities. -/
inductive JsNum where
  | fin (q : ℚ)
  | nan
  | posInf
  | negInf
deriving DecidableEq, Repr

/-- Models JavaScript `isNaN(x)` on a velocity component. -/
def JsNum.isNaN : JsNum → Bool
  | .nan => true
  | _ => false

/-- IEEE-style addition on `JsNum` (used when an impulse is added to a
velocity component): NaN propagates, opposite infinities give NaN. -/
def JsNum.add : JsNum → JsNum → JsNum
  | .nan, _ => .nan
  | _, .nan => .nan
  | .posInf, .negInf => .nan
  | .negInf, .posInf => .nan
  | .posInf, _ => .posInf
  | _, .posInf => .posInf
  | .negInf, _ => .negInf
  | _, .negInf => .negInf
  | .fin a, .fin b => .fin (a + b)

/-- A velocity vector whose components may be non-finite. -/
structure JsVec3 where
  x : JsNum
  y : JsNum
  z : JsNum
deriving DecidableEq, Repr

/-- The all-zero (finite) velocity, as written by `velocity.set(0, 0, 0)`. -/
def JsVec3.zero : JsVec3 := ⟨.fin 0, .fin 0, .fin 0⟩

end Bounce

namespace Bounce.Main

open Bounce

/-! Embedding of the `Level` class of `src/js/main.js` (entity collections,
layout builders, distance-based collision queries, `isComplete`). -/

/-- A platform entity: `{ mesh, body, position, size }` with a static body.
Static meshes/bodies never move, so one position field suffices. -/
structure Platform where
  position : Vec3
  size : Vec3
deriving DecidableEq, Repr

/-- The `movement` script of a moving obstacle: `{ start, end, speed,
direction, progress }` (`endPos` renders JS `end`, a Lean keyword). -/
structure Movement where
  startPos : Vec3
  endPos : Vec3
  speed : ℚ
  direction : Int
  progress : ℚ
deriving DecidableEq, Repr

/-- Obstacle `type` field: `'static'` or `'moving'` (with its script). -/
inductive ObstacleKind where
  | static : ObstacleKind
  | moving : Movement → ObstacleKind
deriving DecidableEq, Repr

/-- An obstacle entity.  `Level.update` writes `body.position` while the
collision query reads `mesh.position` (synced from the body by the physics
update each frame), so mesh and body positions are tracked separately;
`position` is the initial-position field stored on the JS object. -/
structure Obstacle where
  meshPos : Vec3
  bodyPos : Vec3
  position : Vec3
  size : Vec3
  kind : ObstacleKind
deriving DecidableEq, Repr

/-- A hoop (goal) entity: `{ mesh, body, position, collected }`.  Its body is
static; `mesh.visible` is a render-side flag and is not part of the state. -/
structure Hoop where
  position : Vec3
  collected : Bool
deriving DecidableEq, Repr

/-- A checkpoint entity: `{ mesh, body, position, activated }` (the color
change on activation happens on the external scene-graph material). -/
structure CheckpointE where
  position : Vec3
  activated : Bool
deriving DecidableEq, Repr

/-- The string `type` of a power-up. -/
inductive PowerUpKind where
  | enlarge
  | shrink
  | speed
  | antigravity
deriving DecidableEq, Repr

/-- A power-up entity: `{ mesh, body, position, type, collected }`. -/
structure PowerUp where
  position : Vec3
  ptype : PowerUpKind
  collected : Bool
deriving DecidableEq, Repr

/-- The mutable state of a `Level` instance: the entity arrays and the two
goal counters. -/
structure LevelState where
  platforms : List Platform
  obstacles : List Obstacle
  hoops : List Hoop
  checkpoints : List CheckpointE
  powerUps : List PowerUp
  waterAreas : List Platform
  hoopsCollected : ℕ
  totalHoops : ℕ
deriving DecidableEq, Repr

/-- State set up by the `Level` constructor: empty collections, zero
counters. -/
def initLevel : LevelState :=
  { platforms := [], obstacles := [], hoops := [], checkpoints := [],
    powerUps := [], waterAreas := [], hoopsCollected := 0, totalHoops := 0 }

/-- Source `clearLevel()`: removes every entity (scene/world detach is on the
external collaborators), empties the arrays and resets both counters. -/
def clearLevel (_s : LevelState) : LevelState := initLevel

/-- Builds the obstacle object created by `addObstacle` (static body). -/
def staticObstacle (position size : Vec3) : Obstacle :=
  { meshPos := position, bodyPos := position, position := position,
    size := size, kind := .static }

/-- Builds the obstacle object created by `addMovingObstacle`
(fixed 0.5-cube size, direction 1, progress 0). -/
def movingObstacle (position startPos endPos : Vec3) (speed : ℚ) : Obstacle :=
  { meshPos := position, bodyPos := position, position := position,
    size := ⟨0.5, 0.5, 0.5⟩,
    kind := .moving { startPos := startPos, endPos := endPos, speed := speed,
                      direction := 1, progress := 0 } }

/-- Source `createBasicLevel()`: the level-1 layout table, pushed in source order
(5 platforms, 1 checkpoint, 2 static + 1 moving obstacle, 2 hoops with
`totalHoops = 2`, 2 power-ups). -/
def createBasicLevel (s : LevelState) : LevelState :=
  { s with
    platforms := s.platforms ++
      [ ⟨⟨0, -1, 0⟩, ⟨10, 0.5, 3⟩⟩
      , ⟨⟨-7, 0, 0⟩, ⟨3, 0.5, 3⟩⟩
      , ⟨⟨-12, 1, 0⟩, ⟨3, 0.5, 3⟩⟩
      , ⟨⟨8, 0, 0⟩, ⟨5, 0.5, 3⟩⟩
      , ⟨⟨15, 1, 0⟩, ⟨5, 0.5, 3⟩⟩ ],
    checkpoints := s.checkpoints ++ [⟨⟨8, 1, 0⟩, false⟩],
    obstacles := s.obstacles ++
      [ staticObstacle ⟨-5, 0, 0⟩ ⟨0.5, 0.5, 0.5⟩
      , staticObstacle ⟨5, 0, 0⟩ ⟨0.5, 0.5, 0.5⟩
      , movingObstacle ⟨12, 1, 0⟩ ⟨12, 1, 0⟩ ⟨15, 1, 0⟩ 0.05 ],
    hoops := s.hoops ++ [⟨⟨-12, 2.5, 0⟩, false⟩, ⟨⟨15, 2.5, 0⟩, false⟩],
    totalHoops := 2,
    powerUps := s.powerUps ++
      [ ⟨⟨-2, 0.5, 0⟩, .enlarge, false⟩
      , ⟨⟨10, 1.5, 0⟩, .speed, false⟩ ] }

/-- Source `createIntermediateLevel()`: the placeholder that just delegates to the
level-1 builder. -/
def createIntermediateLevel (s : LevelState) : LevelState :=
  createBasicLevel s

/-- Source `createTestLevel(levelNumber)`: the switch over the level number
(case 1 and the default build the basic level, case 2 the intermediate). -/
def createTestLevel (levelNumber : ℕ) (s : LevelState) : LevelState :=
  match levelNumber with
  | 1 => createBasicLevel s
  | 2 => createIntermediateLevel s
  | _ => createBasicLevel s

/-- Source `loadLevel(levelNumber)`: clear, then rebuild from the layout table. -/
def loadLevel (levelNumber : ℕ) (s : LevelState) : LevelState :=
  createTestLevel levelNumber (clearLevel s)

/-- The collision radius the level queries read off the ball:
`ball.isEnlarged ? ball.largeRadius : ball.normalRadius` (1 and 0.5). -/
def ballCollisionRadius (enlarged : Bool) : ℚ :=
  if enlarged then 1 else 0.5

/-- Source `checkObstacleCollisions(ball)`: pure any-obstacle-within-range query
against `obstacle.mesh.position`, margin 0.5. -/
def checkObstacleCollisions (ballMeshPos : Vec3) (enlarged : Bool)
    (s : LevelState) : Bool :=
  s.obstacles.any fun o => withinDist ballMeshPos o.meshPos (ballCollisionRadius enlarged + 0.5)

/-- The loop body of `checkHoopCollisions`: walks the hoop array, marks the
first uncollected hoop within range (margin 0.6) as collected and returns
`true`; already-collected hoops are skipped. -/
def collectHoops (ballMeshPos : Vec3) (enlarged : Bool) :
    List Hoop → List Hoop × Bool
  | [] => ([], false)
  | h :: t =>
    if !h.collected && withinDist ballMeshPos h.position (ballCollisionRadius enlarged + 0.6) then
      ({ h with collected := true } :: t, true)
    else
      let r := collectHoops ballMeshPos enlarged t
      (h :: r.1, r.2)

/-- Source `checkHoopCollisions(ball)`: on a hit, also increments
`hoopsCollected`. -/
def checkHoopCollisions (ballMeshPos : Vec3) (enlarged : Bool)
    (s : LevelState) : LevelState × Bool :=
  let r := collectHoops ballMeshPos enlarged s.hoops
  ({ s with hoops := r.1,
            hoopsCollected := if r.2 then s.hoopsCollected + 1 else s.hoopsCollected },
   r.2)

/-- The loop body of `checkCheckpointCollisions`: first unactivated
checkpoint within range (margin 0.7) is marked activated and returned. -/
def activateCheckpoints (ballMeshPos : Vec3) (enlarged : Bool) :
    List CheckpointE → List CheckpointE × Option Vec3
  | [] => ([], none)
  | c :: t =>
    if !c.activated && withinDist ballMeshPos c.position (ballCollisionRadius enlarged + 0.7) then
      ({ c with activated := true } :: t, some c.position)
    else
      let r := activateCheckpoints ballMeshPos enlarged t
      (c :: r.1, r.2)

/-- Source `checkCheckpointCollisions(ball)`: returns the hit checkpoint's position
(the caller only uses `checkpoint.position`), or `none`. -/
def checkCheckpointCollisions (ballMeshPos : Vec3) (enlarged : Bool)
    (s : LevelState) : LevelState × Option Vec3 :=
  let r := activateCheckpoints ballMeshPos enlarged s.checkpoints
  ({ s with checkpoints := r.1 }, r.2)

/-- The loop body of `checkPowerUpCollisions`: first uncollected power-up
within range (margin 0.5) is marked collected and its type returned. -/
def collectPowerUps (ballMeshPos : Vec3) (enlarged : Bool) :
    List PowerUp → List PowerUp × Option PowerUpKind
  | [] => ([], none)
  | p :: t =>
    if !p.collected && withinDist ballMeshPos p.position (ballCollisionRadius enlarged + 0.5) then
      ({ p with collected := true } :: t, some p.ptype)
    else
      let r := collectPowerUps ballMeshPos enlarged t
      (p :: r.1, r.2)

/-- Source `checkPowerUpCollisions(ball)`: returns the hit power-up's type
(the caller dispatches on `powerUp.type`), or `none`. -/
def checkPowerUpCollisions (ballMeshPos : Vec3) (enlarged : Bool)
    (s : LevelState) : LevelState × Option PowerUpKind :=
  let r := collectPowerUps ballMeshPos enlarged s.powerUps
  ({ s with powerUps := r.1 }, r.2)

/-- Source `Level.update(deltaTime)` on one obstacle: advance a moving obstacle's
progress by `speed * direction * deltaTime`, clamp-and-reflect at 0 and 1,
and lerp its body position between the start and end anchors. -/
def updateObstacle (dt : ℚ) (o : Obstacle) : Obstacle :=
  match o.kind with
  | .static => o
  | .moving m =>
    let p1 := m.progress + m.speed * (m.direction : ℚ) * dt
    let pd : ℚ × Int :=
      if p1 ≥ 1 then (1, -1) else if p1 ≤ 0 then (0, 1) else (p1, m.direction)
    let body : Vec3 :=
      ⟨ m.startPos.x + (m.endPos.x - m.startPos.x) * pd.1
      , m.startPos.y + (m.endPos.y - m.startPos.y) * pd.1
      , m.startPos.z + (m.endPos.z - m.startPos.z) * pd.1 ⟩
    { o with bodyPos := body,
             kind := .moving { m with progress := pd.1, direction := pd.2 } }

/-- Source `Level.update(deltaTime)`: moves the moving obstacles.  The rotation and
bobbing applied to power-ups, hoops and checkpoints touch only their meshes
(external scene graph) and no gameplay state. -/
def levelUpdate (dt : ℚ) (s : LevelState) : LevelState :=
  { s with obstacles := s.obstacles.map (updateObstacle dt) }

/-- The per-frame physics sync (`Physics.update` loop body): every
registered mesh position is copied from its body position. -/
def syncObstacleMeshes (s : LevelState) : LevelState :=
  { s with obstacles := s.obstacles.map fun o => { o with meshPos := o.bodyPos } }

/-- Source `isComplete()`: literally `this.hoopsCollected >= this.totalHoops`. -/
def isComplete (s : LevelState) : Bool :=
  decide (s.totalHoops ≤ s.hoopsCollected)

end Bounce.Main

namespace Bounce.MainBall

open Bounce

/-! Embedding of the `Ball` class of `src/js/main.js` (the variant whose
`enlarge`/`shrink`/`moveLeft`/`moveRight` the movement and size claims
cite).  Visual material colors that the methods write are carried as plain
hex numbers. -/

/-- Source `this.normalRadius` (never reassigned). -/
def normalRadius : ℚ := 0.5

/-- Source `this.largeRadius` (never reassigned). -/
def largeRadius : ℚ := 1.0

/-- Source `this.mass` (never reassigned; `enlarge` reads it as the base mass). -/
def massAttr : ℚ := 1

/-- Mutable state of a `main.js` `Ball` and of its current physics body.
The body is destroyed and recreated on size change, so the body-level
fields (radius, mass, damping, material) belong to whichever body is
current. -/
structure MBall where
  isEnlarged : Bool
  movingLeft : Bool
  movingRight : Bool
  meshScale : ℚ
  colorHex : ℕ
  emissiveHex : ℕ
  trailColorHex : ℕ
  bodyRadius : ℚ
  bodyMass : ℚ
  restitution : ℚ
  friction : ℚ
  linearDamping : ℚ
  angularDamping : ℚ
  position : Vec3
  velocity : Vec3
  angularVelocity : Vec3
  checkpoint : Vec3
deriving DecidableEq, Repr

/-- State after the constructor and `init()`: normal size, idle, red
visuals, body made by `Physics.createSphere(0.5, (0,2,0), 1,
{restitution: 0.5, friction: 0.3})`, which also sets both dampings
to 0.1. -/
def initMBall : MBall :=
  { isEnlarged := false, movingLeft := false, movingRight := false,
    meshScale := 1, colorHex := 0xFF0000, emissiveHex := 0x330000,
    trailColorHex := 0xFF6666,
    bodyRadius := 0.5, bodyMass := 1, restitution := 0.5, friction := 0.3,
    linearDamping := 0.1, angularDamping := 0.1,
    position := ⟨0, 2, 0⟩, velocity := ⟨0, 0, 0⟩,
    angularVelocity := ⟨0, 0, 0⟩, checkpoint := ⟨0, 2, 0⟩ }

/-- Source `moveLeft(active)`: set the left flag; when activating, clear the right
flag; then set the body velocity: leftward −8 when activating, zero
horizontal when deactivating with the right flag also inactive, leaving the
y and z components untouched. -/
def moveLeft (active : Bool) (s : MBall) : MBall :=
  let s1 := { s with movingLeft := active,
                     movingRight := if active then false else s.movingRight }
  if active then
    { s1 with velocity := ⟨-8, s1.velocity.y, s1.velocity.z⟩ }
  else if !s1.movingRight then
    { s1 with velocity := ⟨0, s1.velocity.y, s1.velocity.z⟩ }
  else
    s1

/-- Source `moveRight(active)`: mirror image of `moveLeft`. -/
def moveRight (active : Bool) (s : MBall) : MBall :=
  let s1 := { s with movingRight := active,
                     movingLeft := if active then false else s.movingLeft }
  if active then
    { s1 with velocity := ⟨8, s1.velocity.y, s1.velocity.z⟩ }
  else if !s1.movingLeft then
    { s1 with velocity := ⟨0, s1.velocity.y, s1.velocity.z⟩ }
  else
    s1

/-- Source `enlarge()`: guarded by `!isEnlarged`.  Doubles the mesh scale, goes
blue, and swaps the body: the old body's position, velocity and angular
velocity are cloned and copied onto a fresh
`createSphere(largeRadius, pos, mass * 1.5, {restitution: 0.5, friction:
0.3})` body (whose creation also sets both dampings to 0.1). -/
def enlarge (s : MBall) : MBall :=
  if s.isEnlarged then s else
  { s with isEnlarged := true, meshScale := 2,
           colorHex := 0x0066CC, emissiveHex := 0x001133,
           trailColorHex := 0x6699FF,
           bodyRadius := largeRadius, bodyMass := massAttr * 1.5,
           restitution := 0.5, friction := 0.3,
           linearDamping := 0.1, angularDamping := 0.1 }

/-- Source `shrink()`: guarded by `isEnlarged`; swaps the body back to
`createSphere(normalRadius, pos, mass, {restitution: 0.5, friction: 0.3})`
carrying position/velocity/angular velocity across, and restores the red
visuals. -/
def shrink (s : MBall) : MBall :=
  if !s.isEnlarged then s else
  { s with isEnlarged := false, meshScale := 1,
           colorHex := 0xFF0000, emissiveHex := 0x330000,
           trailColorHex := 0xFF6666,
           bodyRadius := normalRadius, bodyMass := massAttr,
           restitution := 0.5, friction := 0.3,
           linearDamping := 0.1, angularDamping := 0.1 }

end Bounce.MainBall

namespace Bounce.Part0

open Bounce

/-! Embedding of the `Ball` class of `src/unnamed/part_000` (the variant
with jump cooldown, speed/anti-gravity timers and the per-frame
`ensurePhysicsIntegrity` check; this is the ball the extended `Game` class
of `src/js/game.js` drives). -/

/-- Source `this.normalRadius` (never reassigned). -/
def normalRadius : ℚ := 0.5

/-- Source `this.largeRadius` (never reassigned). -/
def largeRadius : ℚ := 1.0

/-- Source `this.mass` (never reassigned; body masses are derived from it). -/
def massAttr : ℚ := 1

/-- Source `this.jumpForce` (never reassigned). -/
def jumpForce : ℚ := 10

/-- Source `this.initialPosition` (never reassigned). -/
def initialPosition : Vec3 := ⟨0, 2, 0⟩

/-- A pending `setTimeout` scheduled by `increaseSpeed`: its absolute
expiry instant (in seconds; the source passes 5000 ms) together with the
`originalMoveForce` / `originalMaxSpeed` values captured by the callback's
closure at scheduling time. -/
structure SpeedTimer where
  expiresAt : ℚ
  origMoveForce : ℚ
  origMaxSpeed : ℚ
deriving DecidableEq, Repr

/-- Mutable state of a `part_000` `Ball` and its current physics body.
`radius` is the `this.radius` attribute (read by the lethal-ground margin
in `game.js`; never reassigned after construction).  The body's velocity
uses `JsNum` components because `ensurePhysicsIntegrity` inspects them for
NaN.  Trail geometry is reduced to its point count (`respawn` empties it);
material colors are carried as hex numbers. -/
structure BallState where
  radius : ℚ
  moveForce : ℚ
  maxSpeed : ℚ
  isEnlarged : Bool
  isAntiGravity : Bool
  isOnGround : Bool
  movingLeft : Bool
  movingRight : Bool
  jumpCooldown : ℚ
  bodyPos : Vec3
  meshPos : Vec3
  velocity : JsVec3
  angularVelocity : Vec3
  linearDamping : ℚ
  angularDamping : ℚ
  bodyRadius : ℚ
  bodyMass : ℚ
  gravityY : ℚ
  checkpoint : Vec3
  colorHex : ℕ
  emissiveHex : ℕ
  trailColorHex : ℕ
  meshScale : ℚ
  trailLen : ℕ
  speedTimer : Option SpeedTimer
  antiGravTimerAt : Option ℚ
deriving DecidableEq, Repr

/-- State after the constructor and `init()`: red ball of radius 0.5 at
(0,2,0), body from `createSphere` with the blue-ball material, dampings
0.08 / 0.4 set explicitly afterwards, no timers pending, world gravity
−9.82 in effect. -/
def initBall : BallState :=
  { radius := 0.5, moveForce := 15, maxSpeed := 15,
    isEnlarged := false, isAntiGravity := false, isOnGround := false,
    movingLeft := false, movingRight := false, jumpCooldown := 0,
    bodyPos := initialPosition, meshPos := initialPosition,
    velocity := JsVec3.zero, angularVelocity := ⟨0, 0, 0⟩,
    linearDamping := 0.08, angularDamping := 0.4,
    bodyRadius := 0.5, bodyMass := 1, gravityY := -9.82,
    checkpoint := ⟨0, 2, 0⟩,
    colorHex := 0xFF0000, emissiveHex := 0x330000, trailColorHex := 0xFF6666,
    meshScale := 1, trailLen := 0,
    speedTimer := none, antiGravTimerAt := none }

/-- Source `jump()`: only when (`isOnGround` or `isAntiGravity`) and
`jumpCooldown <= 0`.  On success: applies the upward impulse
(`jumpForce * 0.8` when enlarged, `jumpForce` otherwise) at the body
center, which adds `impulse / mass` to the vertical velocity; clears the
ground flag; sets the cooldown to 0.3; zeroes the angular velocity.
Otherwise nothing happens. -/
def jump (s : BallState) : BallState :=
  if (s.isOnGround || s.isAntiGravity) = true ∧ s.jumpCooldown ≤ 0 then
    { s with
      velocity := { s.velocity with
        y := s.velocity.y.add (.fin ((if s.isEnlarged then jumpForce * 0.8 else jumpForce) / s.bodyMass)) },
      isOnGround := false,
      jumpCooldown := 0.3,
      angularVelocity := ⟨0, 0, 0⟩ }
  else
    s

/-- Source `enlarge()`: guarded by `!isEnlarged`; doubles the mesh scale, goes
blue, and swaps the body for `createSphere(largeRadius, pos, mass * 1.5,
perfectBluePhysics)` carrying position / velocity / angular velocity
across, then re-applies `linearDamping = 0.08`, `angularDamping = 0.4`. -/
def enlarge (s : BallState) : BallState :=
  if s.isEnlarged then s else
  { s with isEnlarged := true, meshScale := 2,
           colorHex := 0x0066CC, emissiveHex := 0x001133,
           trailColorHex := 0x6699FF,
           bodyRadius := largeRadius, bodyMass := massAttr * 1.5,
           linearDamping := 0.08, angularDamping := 0.4 }

/-- Source `shrink()`: guarded by `isEnlarged`; the inverse body swap back to
`createSphere(normalRadius, pos, mass, perfectBluePhysics)` with the red
visuals restored. -/
def shrink (s : BallState) : BallState :=
  if !s.isEnlarged then s else
  { s with isEnlarged := false, meshScale := 1,
           colorHex := 0xFF0000, emissiveHex := 0x330000,
           trailColorHex := 0xFF6666,
           bodyRadius := normalRadius, bodyMass := massAttr,
           linearDamping := 0.08, angularDamping := 0.4 }

/-- Source `increaseSpeed()` called at instant `now`: captures the CURRENT
`moveForce` / `maxSpeed` into the callback closure, multiplies them by 2
and 1.5, sets the boost visuals, and cancel-and-replaces the pending speed
timer with one expiring 5 seconds from now. -/
def increaseSpeed (now : ℚ) (s : BallState) : BallState :=
  { s with moveForce := s.moveForce * 2,
           maxSpeed := s.maxSpeed * 1.5,
           emissiveHex := 0x003300, trailColorHex := 0xFF3333,
           speedTimer := some { expiresAt := now + 5,
                                origMoveForce := s.moveForce,
                                origMaxSpeed := s.maxSpeed } }

/-- Firing of the speed `setTimeout` callback, checked at instant `now`:
if a timer is pending and due, restore the captured values and the normal
visuals and null the timer handle. -/
def fireSpeedTimer (now : ℚ) (s : BallState) : BallState :=
  match s.speedTimer with
  | some tm =>
    if tm.expiresAt ≤ now then
      { s with moveForce := tm.origMoveForce, maxSpeed := tm.origMaxSpeed,
               emissiveHex := 0x330000, trailColorHex := 0xFF6666,
               speedTimer := none }
    else s
  | none => s

/-- Source `enableAntiGravity()` called at instant `now`: flag on, body gravity
reduced to −1, boost visuals, cancel-and-replace the anti-gravity timer
with one expiring 5 seconds from now. -/
def enableAntiGravity (now : ℚ) (s : BallState) : BallState :=
  { s with isAntiGravity := true, gravityY := -1,
           emissiveHex := 0x220033, trailColorHex := 0xAA66FF,
           antiGravTimerAt := some (now + 5) }

/-- Firing of the anti-gravity `setTimeout` callback at instant `now`. -/
def fireAntiGravTimer (now : ℚ) (s : BallState) : BallState :=
  match s.antiGravTimerAt with
  | some e =>
    if e ≤ now then
      { s with isAntiGravity := false, gravityY := -9.82,
               emissiveHex := 0x330000, trailColorHex := 0xFF6666,
               antiGravTimerAt := none }
    else s
  | none => s

/-- Source `setCheckpoint(position)`: unconditional overwrite. -/
def setCheckpoint (p : Vec3) (s : BallState) : BallState :=
  { s with checkpoint := p }

/-- Source `respawn()`: teleport the body to the checkpoint, zero both velocities,
empty the trail, shrink if enlarged, clear anti-gravity (restoring −9.82
and cancelling its timer), cancel a pending speed timer while restoring
the default 15/15, and reset the visuals. -/
def respawn (s : BallState) : BallState :=
  let s1 : BallState :=
    { s with bodyPos := s.checkpoint, velocity := JsVec3.zero,
             angularVelocity := ⟨0, 0, 0⟩, trailLen := 0 }
  let s2 := if s1.isEnlarged then shrink s1 else s1
  let s3 :=
    if s2.isAntiGravity then
      { s2 with isAntiGravity := false, gravityY := -9.82,
                antiGravTimerAt := none }
    else s2
  let s4 :=
    match s3.speedTimer with
    | some _ => { s3 with moveForce := 15, maxSpeed := 15, speedTimer := none }
    | none => s3
  { s4 with emissiveHex := 0x330000, trailColorHex := 0xFF6666 }

/-- Source `reset()`: move the checkpoint back to the spawn point, then
`respawn()`. -/
def reset (s : BallState) : BallState :=
  respawn { s with checkpoint := initialPosition }

/-- First stage of `ensurePhysicsIntegrity()`: re-impose the damping
profile when a damping is falsy (0 for a rational) or below 0.01. -/
def fixDampingStage (s : BallState) : BallState :=
  let s1 :=
    if s.linearDamping = 0 ∨ s.linearDamping < 0.01 then
      { s with linearDamping := 0.08 }
    else s
  if s1.angularDamping = 0 ∨ s1.angularDamping < 0.01 then
    { s1 with angularDamping := 0.4 }
  else s1

/-- Second stage of `ensurePhysicsIntegrity()`: zero the velocity in place
when any of its components is NaN. -/
def fixNaNVelocityStage (s : BallState) : BallState :=
  if s.velocity.x.isNaN || s.velocity.y.isNaN || s.velocity.z.isNaN then
    { s with velocity := JsVec3.zero }
  else s

/-- The displacement test of `ensurePhysicsIntegrity()`: some position
coordinate exceeds magnitude 100. -/
def outOfBounds (s : BallState) : Prop :=
  100 < |s.bodyPos.x| ∨ 100 < |s.bodyPos.y| ∨ 100 < |s.bodyPos.z|

instance (s : BallState) : Decidable (outOfBounds s) := by
  unfold outOfBounds; infer_instance

/-- Source `ensurePhysicsIntegrity()`: the damping fix, then the NaN-velocity
fix, then — only when the ball is displaced out of bounds — `respawn()`. -/
def ensurePhysicsIntegrity (s : BallState) : BallState :=
  let s3 := fixNaNVelocityStage (fixDampingStage s)
  if outOfBounds s3 then respawn s3 else s3

end Bounce.Part0

namespace Bounce.Game

open Bounce

/-! Embedding of the extended `Game` class of `src/js/game.js` (the one
with `gamePaused`, event flags and the lethal-ground check), driving the
`part_000` ball and the `main.js` level. -/

/-- Source `this.eventFlags`. -/
structure EventFlags where
  levelComplete : Bool
  powerUpCollected : Bool
  checkpointReached : Bool
  groundContact : Bool
deriving DecidableEq, Repr

/-- Mutable state of a `Game` instance.  `rafActive` models whether an
animation-frame callback is currently scheduled (`animationFrameId` not
null); `renders` and `physicsSteps` count the calls made to the external
renderer and rigid-body world.  The `...At` fields are the pending
`setTimeout` callbacks with their absolute expiry instants (in seconds). -/
structure GameState where
  lives : Int
  score : Int
  currentLevel : ℕ
  isRunning : Bool
  gamePaused : Bool
  rafActive : Bool
  keyLeft : Bool
  keyRight : Bool
  keyUp : Bool
  keyDown : Bool
  flags : EventFlags
  clearCheckpointFlagAt : Option ℚ
  clearPowerUpFlagAt : Option ℚ
  clearGroundFlagAt : Option ℚ
  levelAdvanceAt : Option ℚ
  renders : ℕ
  physicsSteps : ℕ
  ball : Part0.BallState
  level : Main.LevelState
deriving DecidableEq, Repr

/-- State after the constructor and `init()`: 3 lives, score 0, level 1
loaded, loop not yet started, nothing paused, no flags, no pending
timeouts. -/
def initGame : GameState :=
  { lives := 3, score := 0, currentLevel := 1,
    isRunning := false, gamePaused := false, rafActive := false,
    keyLeft := false, keyRight := false, keyUp := false, keyDown := false,
    flags := ⟨false, false, false, false⟩,
    clearCheckpointFlagAt := none, clearPowerUpFlagAt := none,
    clearGroundFlagAt := none, levelAdvanceAt := none,
    renders := 0, physicsSteps := 0,
    ball := Part0.initBall,
    level := Main.loadLevel 1 Main.initLevel }

/-- Source `start()`: when not running, mark running and schedule the first
frame. -/
def start (g : GameState) : GameState :=
  if g.isRunning then g
  else { g with isRunning := true, rafActive := true }

/-- Source `pause()`: when not already paused, set the pause flag, CANCEL the
scheduled animation frame (`cancelAnimationFrame`), and reset all key
states. -/
def pause (g : GameState) : GameState :=
  if g.gamePaused then g
  else { g with gamePaused := true, rafActive := false,
                keyLeft := false, keyRight := false,
                keyUp := false, keyDown := false }

/-- Source `resume()`: when paused, clear the pause flag and restart the frame
loop. -/
def resume (g : GameState) : GameState :=
  if g.gamePaused then
    { g with gamePaused := false, rafActive := true }
  else g

/-- Source `addScore(points)` (the HUD update is external). -/
def addScore (points : Int) (g : GameState) : GameState :=
  { g with score := g.score + points }

/-- Source `gameOver()`: stop the loop's gameplay advancement (the game-over
screen is external). -/
def gameOver (g : GameState) : GameState :=
  { g with isRunning := false }

/-- Source `loseLife()`: decrement lives unconditionally; with lives remaining,
camera-shake/notify (external) and respawn the ball; otherwise
`gameOver()`. -/
def loseLife (g : GameState) : GameState :=
  let g1 := { g with lives := g.lives - 1 }
  if 0 < g1.lives then
    { g1 with ball := Part0.respawn g1.ball }
  else
    gameOver g1

/-- Source `applyPowerUp(powerUp)`: dispatch on the power-up type (the
notification is external).  `now` feeds the 5-second timers. -/
def applyPowerUp (now : ℚ) (k : Main.PowerUpKind) (g : GameState) : GameState :=
  match k with
  | .enlarge => { g with ball := Part0.enlarge g.ball }
  | .shrink => { g with ball := Part0.shrink g.ball }
  | .speed => { g with ball := Part0.increaseSpeed now g.ball }
  | .antigravity => { g with ball := Part0.enableAntiGravity now g.ball }

/-- The per-platform test inside `checkGroundContact`: is the ball over
this platform (with a `radius * 0.8` margin) and near its top surface? -/
def onPlatformCheck (ball : Part0.BallState) (p : Main.Platform) : Bool :=
  let margin := ball.radius * 0.8
  let minX := p.position.x - p.size.x / 2 - margin
  let maxX := p.position.x + p.size.x / 2 + margin
  let minZ := p.position.z - p.size.z / 2 - margin
  let maxZ := p.position.z + p.size.z / 2 + margin
  let topY := p.position.y + p.size.y / 2
  let bottomY := ball.bodyPos.y - ball.radius
  decide (minX ≤ ball.bodyPos.x) && decide (ball.bodyPos.x ≤ maxX) &&
    decide (minZ ≤ ball.bodyPos.z) && decide (ball.bodyPos.z ≤ maxZ) &&
    decide (|topY - bottomY| < 0.5)

/-- Source `checkGroundContact()`: gated by the one-shot `groundContact` flag;
when the ball body sits in the ground band (−1 < y < 0.2) over no
platform, lose a life, kick the ball upward (velocity.y = 10), set the
flag and schedule its clearing 2 seconds later. -/
def checkGroundContact (now : ℚ) (g : GameState) : GameState :=
  if g.flags.groundContact then g
  else if g.ball.bodyPos.y < 0.2 ∧ -1 < g.ball.bodyPos.y then
    if g.level.platforms.any (onPlatformCheck g.ball) then g
    else
      let g1 := loseLife g
      { g1 with
        ball := { g1.ball with
          velocity := { g1.ball.velocity with y := .fin 10 } },
        flags := { g1.flags with groundContact := true },
        clearGroundFlagAt := some (now + 2) }
  else g

/-- First stage of `checkCollisions`: the obstacle query (against the ball
mesh) and its life loss. -/
def obstacleStep (g : GameState) : GameState :=
  if Main.checkObstacleCollisions g.ball.meshPos g.ball.isEnlarged g.level then
    loseLife g
  else g

/-- Second stage: the hoop query and its +100 score. -/
def hoopStep (g : GameState) : GameState :=
  let r := Main.checkHoopCollisions g.ball.meshPos g.ball.isEnlarged g.level
  let g1 := { g with level := r.1 }
  if r.2 then addScore 100 g1 else g1

/-- Third stage: the checkpoint query; gated by the one-shot
`checkpointReached` flag, it stores the respawn point, awards +50 and
schedules the flag clearing 1 second later. -/
def checkpointStep (now : ℚ) (g : GameState) : GameState :=
  let r := Main.checkCheckpointCollisions g.ball.meshPos g.ball.isEnlarged g.level
  let g1 := { g with level := r.1 }
  match r.2 with
  | some cpos =>
    if g1.flags.checkpointReached then g1
    else
      addScore 50
        { g1 with ball := Part0.setCheckpoint cpos g1.ball,
                  flags := { g1.flags with checkpointReached := true },
                  clearCheckpointFlagAt := some (now + 1) }
  | none => g1

/-- Fourth stage: the power-up query; gated by the one-shot
`powerUpCollected` flag, it applies the effect, awards +50 and schedules
the flag clearing 0.5 seconds later. -/
def powerUpStep (now : ℚ) (g : GameState) : GameState :=
  let r := Main.checkPowerUpCollisions g.ball.meshPos g.ball.isEnlarged g.level
  let g1 := { g with level := r.1 }
  match r.2 with
  | some k =>
    if g1.flags.powerUpCollected then g1
    else
      { addScore 50 (applyPowerUp now k g1) with
          flags := { g1.flags with powerUpCollected := true },
          clearPowerUpFlagAt := some (now + 0.5) }
  | none => g1

/-- Fifth stage: the out-of-bounds check (`ball.position.y < -10`, read
from the physics body). -/
def fallStep (g : GameState) : GameState :=
  if g.ball.bodyPos.y < -10 then loseLife g else g

/-- Source `checkCollisions()`: the five stages in source order, then the lethal
ground check. -/
def checkCollisions (now : ℚ) (g : GameState) : GameState :=
  checkGroundContact now
    (fallStep (powerUpStep now (checkpointStep now (hoopStep (obstacleStep g)))))

/-- Source `completeLevel()`: +1000 bonus, level-complete screen (external),
pause gameplay and schedule the level advance 2 seconds later. -/
def completeLevel (now : ℚ) (g : GameState) : GameState :=
  { addScore 1000 g with gamePaused := true, levelAdvanceAt := some (now + 2) }

/-- Source `checkGameConditions()`: edge-triggered level completion, then game
over once lives are exhausted. -/
def checkGameConditions (now : ℚ) (g : GameState) : GameState :=
  let g1 :=
    if Main.isComplete g.level && !g.flags.levelComplete then
      completeLevel now { g with flags := { g.flags with levelComplete := true } }
    else g
  if g1.lives ≤ 0 then gameOver g1 else g1

/-- Firing of the due checkpoint-flag clearing scheduled by
`checkCollisions`. -/
def fireCheckpointFlagClear (now : ℚ) (g : GameState) : GameState :=
  match g.clearCheckpointFlagAt with
  | some e =>
    if e ≤ now then
      { g with flags := { g.flags with checkpointReached := false },
               clearCheckpointFlagAt := none }
    else g
  | none => g

/-- Firing of the due power-up-flag clearing scheduled by
`checkCollisions`. -/
def firePowerUpFlagClear (now : ℚ) (g : GameState) : GameState :=
  match g.clearPowerUpFlagAt with
  | some e =>
    if e ≤ now then
      { g with flags := { g.flags with powerUpCollected := false },
               clearPowerUpFlagAt := none }
    else g
  | none => g

/-- Firing of the due ground-flag clearing scheduled by
`checkGroundContact`. -/
def fireGroundFlagClear (now : ℚ) (g : GameState) : GameState :=
  match g.clearGroundFlagAt with
  | some e =>
    if e ≤ now then
      { g with flags := { g.flags with groundContact := false },
               clearGroundFlagAt := none }
    else g
  | none => g

/-- Firing of the due level-advance timeout scheduled by `completeLevel`:
`currentLevel++`, HUD update (external), reload, ball reset, unpause,
clear the one-shot levelComplete flag. -/
def fireLevelAdvance (now : ℚ) (g : GameState) : GameState :=
  match g.levelAdvanceAt with
  | some e =>
    if e ≤ now then
      { g with currentLevel := g.currentLevel + 1,
               level := Main.loadLevel (g.currentLevel + 1) g.level,
               ball := Part0.reset g.ball,
               gamePaused := false,
               flags := { g.flags with levelComplete := false },
               levelAdvanceAt := none }
    else g
  | none => g

/-- Runs whichever scheduled `setTimeout` callbacks have come due by
instant `now` (they execute between frame ticks on the single thread):
the ball's power-up expiries, the three one-shot flag clearings, and the
level-advance body of `completeLevel`. -/
def advanceTimers (now : ℚ) (g : GameState) : GameState :=
  fireLevelAdvance now
    (fireGroundFlagClear now
      (firePowerUpFlagClear now
        (fireCheckpointFlagClear now
          { g with ball := Part0.fireSpeedTimer now (Part0.fireAntiGravTimer now g.ball) })))

/-- The per-tick outcome of the external physics step, ball update and
direct controls on the ball body: these touch only the body's position and
velocity (and ball-internal bookkeeping), never lives/score/flags, so the
frame model takes them as an adversarial input.  `ballMeshPos` and
`ballBodyPos` are separate because the mesh is synced from the body with
the anti-flashing stabilizer in between. -/
structure FrameIn where
  now : ℚ
  dtRaw : ℚ
  ballBodyPos : Vec3
  ballMeshPos : Vec3
  ballVel : JsVec3
deriving DecidableEq, Repr

/-- The unpaused gameplay path of one `gameLoop()` invocation: delta clamp
(min with 0.1), physics step / direct controls / ball update — whose net
effect on the ball body is the adversarial `inp` outcome — with mesh sync,
then `level.update`, `checkCollisions`, `checkGameConditions` and the
render call. -/
def runningFrame (inp : FrameIn) (g0 : GameState) : GameState :=
  let dt := min inp.dtRaw 0.1
  let g1 := { g0 with
    physicsSteps := g0.physicsSteps + 1,
    ball := { g0.ball with bodyPos := inp.ballBodyPos,
                           meshPos := inp.ballMeshPos,
                           velocity := inp.ballVel },
    level := Main.syncObstacleMeshes g0.level }
  let g2 := { g1 with level := Main.levelUpdate dt g1.level }
  let g3 := checkCollisions inp.now g2
  let g4 := checkGameConditions inp.now g3
  { g4 with renders := g4.renders + 1 }

/-- One invocation of `gameLoop()` at the instant a scheduled frame would
fire (timers that came due beforehand run first).  With no frame scheduled
nothing at all runs.  A frame that finds `isRunning` false returns early
WITHOUT rescheduling and without rendering.  A frame with `gamePaused` set
skips controls, physics, ball/level updates, collisions and game
conditions but still renders and reschedules.  Otherwise the full pipeline
(`runningFrame`) runs and renders. -/
def gameLoopStep (inp : FrameIn) (g : GameState) : GameState :=
  if !g.rafActive then g
  else
    let g0 := advanceTimers inp.now g
    if !g0.isRunning then { g0 with rafActive := false }
    else if g0.gamePaused then { g0 with renders := g0.renders + 1 }
    else runningFrame inp g0

/-- A whole schedule of frame ticks. -/
def runFrames (inps : List FrameIn) (g : GameState) : GameState :=
  inps.foldl (fun s i => gameLoopStep i s) g

end Bounce.Game

namespace Bounce

open Bounce.Main Bounce.MainBall Bounce.Part0 Bounce.Game

/-! Helper lemmas shared by several developments. -/

/-- Every branch of the `createTestLevel` switch builds the basic
(level-1) layout. -/
lemma createTestLevel_eq_basic (m : ℕ) (t : Main.LevelState) :
    Main.createTestLevel m t = Main.createBasicLevel t := by
  match m with
  | 0 => rfl
  | 1 => rfl
  | 2 => rfl
  | (_ + 3) => rfl

/-- Source `loadLevel` ignores both the level number and the previous state. -/
lemma loadLevel_const (m : ℕ) (t : Main.LevelState) :
    Main.loadLevel m t = Main.createBasicLevel Main.initLevel := by
  unfold Main.loadLevel Main.clearLevel
  exact createTestLevel_eq_basic m Main.initLevel

/-- Field behavior of `respawn`: teleport to the checkpoint, velocities
zeroed, trail emptied, all power-up state cleared, checkpoint and mesh
position untouched. -/
lemma respawn_fields (b : Part0.BallState) :
    (Part0.respawn b).bodyPos = b.checkpoint ∧
    (Part0.respawn b).checkpoint = b.checkpoint ∧
    (Part0.respawn b).meshPos = b.meshPos ∧
    (Part0.respawn b).velocity = JsVec3.zero ∧
    (Part0.respawn b).angularVelocity = ⟨0, 0, 0⟩ ∧
    (Part0.respawn b).trailLen = 0 ∧
    (Part0.respawn b).isEnlarged = false ∧
    (Part0.respawn b).isAntiGravity = false ∧
    (Part0.respawn b).speedTimer = none ∧
    (Part0.respawn b).radius = b.radius := by
  cases hE : b.isEnlarged <;> cases hA : b.isAntiGravity <;>
    cases hS : b.speedTimer <;>
      simp [Part0.respawn, Part0.shrink, hE, hA, hS]

/-- The damping-fix stage touches only the two damping fields. -/
lemma fixDampingStage_proj (s : Part0.BallState) :
    (Part0.fixDampingStage s).bodyPos = s.bodyPos ∧
    (Part0.fixDampingStage s).meshPos = s.meshPos ∧
    (Part0.fixDampingStage s).checkpoint = s.checkpoint ∧
    (Part0.fixDampingStage s).velocity = s.velocity ∧
    (Part0.fixDampingStage s).angularVelocity = s.angularVelocity ∧
    (Part0.fixDampingStage s).trailLen = s.trailLen ∧
    (Part0.fixDampingStage s).isEnlarged = s.isEnlarged ∧
    (Part0.fixDampingStage s).isAntiGravity = s.isAntiGravity ∧
    (Part0.fixDampingStage s).speedTimer = s.speedTimer := by
  simp only [Part0.fixDampingStage]
  split_ifs <;> simp

/-- The NaN-velocity stage touches only the velocity, and only when some
component is NaN. -/
lemma fixNaNVelocityStage_proj (s : Part0.BallState) :
    (Part0.fixNaNVelocityStage s).bodyPos = s.bodyPos ∧
    (Part0.fixNaNVelocityStage s).meshPos = s.meshPos ∧
    (Part0.fixNaNVelocityStage s).checkpoint = s.checkpoint ∧
    (Part0.fixNaNVelocityStage s).angularVelocity = s.angularVelocity ∧
    (Part0.fixNaNVelocityStage s).trailLen = s.trailLen ∧
    (Part0.fixNaNVelocityStage s).isEnlarged = s.isEnlarged ∧
    (Part0.fixNaNVelocityStage s).isAntiGravity = s.isAntiGravity ∧
    (Part0.fixNaNVelocityStage s).speedTimer = s.speedTimer ∧
    ((s.velocity.x.isNaN || s.velocity.y.isNaN || s.velocity.z.isNaN) = true →
      (Part0.fixNaNVelocityStage s).velocity = JsVec3.zero) ∧
    ((s.velocity.x.isNaN || s.velocity.y.isNaN || s.velocity.z.isNaN) = false →
      (Part0.fixNaNVelocityStage s).velocity = s.velocity) := by
  simp only [Part0.fixNaNVelocityStage]
  split_ifs with h
  · refine ⟨rfl, rfl, rfl, rfl, rfl, rfl, rfl, rfl, fun _ => rfl, fun hf => ?_⟩
    rw [hf] at h
    exact absurd h (by simp)
  · exact ⟨rfl, rfl, rfl, rfl, rfl, rfl, rfl, rfl, fun ht => absurd ht h, fun _ => rfl⟩

end Bounce

namespace Bounce

open Bounce.Main Bounce.Part0

/-- C3 counterexample: immediately after `clearLevel` both counters are 0,
and `isComplete()` returns `true` there — the claim says it must be false
in every state with `totalGoals = 0`. -/
theorem isComplete_true_after_clearLevel :
    Main.isComplete (Main.clearLevel (Main.loadLevel 1 Main.initLevel)) = true ∧
    (Main.clearLevel (Main.loadLevel 1 Main.initLevel)).totalHoops = 0 ∧
    (Main.clearLevel (Main.loadLevel 1 Main.initLevel)).hoopsCollected = 0 :=
  ⟨rfl, rfl, rfl⟩

/-- C3 (amended): `isComplete()` is literally
`hoopsCollected >= totalHoops`: it is false whenever strictly fewer goals
are collected than the total, true as soon as the counters are equal —
including every state with `totalHoops = 0`, where it is true (not
false). -/
theorem isComplete_iff_geq (s : Main.LevelState) :
    (Main.isComplete s = true ↔ s.totalHoops ≤ s.hoopsCollected) ∧
    (s.hoopsCollected < s.totalHoops → Main.isComplete s = false) ∧
    (s.hoopsCollected = s.totalHoops → Main.isComplete s = true) ∧
    (s.totalHoops = 0 → Main.isComplete s = true) := by
  unfold Main.isComplete
  refine ⟨by simp, ?_, ?_, ?_⟩
  · intro h
    simp only [decide_eq_false_iff_not]
    omega
  · intro h
    simp [h]
  · intro h
    simp [h]

/-- Witness for `isComplete_iff_geq` at concrete levels. -/
theorem isComplete_iff_geq_witness :
    Main.isComplete (Main.loadLevel 1 Main.initLevel) = false ∧
    Main.isComplete Main.initLevel = true :=
  ⟨(isComplete_iff_geq (Main.loadLevel 1 Main.initLevel)).2.1 (by decide),
   (isComplete_iff_geq Main.initLevel).2.2.2 rfl⟩

/-- C10: every level number loads exactly the level-1 layout (the level-2
builder delegates to the level-1 builder and every other number falls
through to it), with 2 hoops in total and the collected counter reset. -/
theorem loadLevel_same_layout_for_all_levels (n : ℕ) (s : Main.LevelState) :
    Main.loadLevel n s = Main.loadLevel 1 s ∧
    Main.createIntermediateLevel s = Main.createBasicLevel s ∧
    (Main.loadLevel n s).totalHoops = 2 ∧
    (Main.loadLevel n s).hoopsCollected = 0 ∧
    (Main.loadLevel n s).checkpoints = [⟨⟨8, 1, 0⟩, false⟩] := by
  rw [loadLevel_const n s, loadLevel_const 1 s]
  exact ⟨rfl, rfl, rfl, rfl, rfl⟩

/-- The speed power-up collected at t = 0 s and again at t = 2 s (while
the first boost is still active): the state right after the second
collection. -/
def speedRunSecond : Part0.BallState :=
  Part0.increaseSpeed 2 (Part0.fireSpeedTimer 2 (Part0.increaseSpeed 0 Part0.initBall))

/-- C1: evaluating `increaseSpeed` at the claim's own scenario.  The timer
is indeed restarted, not stacked (still pending 4.5 s after the second
collection, fired by 5.5 s after it), but the expiry callback of the
second collection captured the ALREADY-BOOSTED values, so after expiry
`moveForce = 30` and `maxSpeed = 22.5` — not the pre-boost base 15 / 15
the claim (and the spec) promise. -/
theorem increaseSpeed_retrigger_keeps_boosted_base :
    Part0.initBall.moveForce = 15 ∧ Part0.initBall.maxSpeed = 15 ∧
    (Part0.fireSpeedTimer (13/2) speedRunSecond).speedTimer.isSome = true ∧
    (Part0.fireSpeedTimer (13/2) speedRunSecond).moveForce = 60 ∧
    (Part0.fireSpeedTimer (15/2) speedRunSecond).speedTimer = none ∧
    (Part0.fireSpeedTimer (15/2) speedRunSecond).moveForce = 30 ∧
    (Part0.fireSpeedTimer (15/2) speedRunSecond).maxSpeed = 45/2 := by
  norm_num [speedRunSecond, Part0.increaseSpeed, Part0.fireSpeedTimer, Part0.initBall]

/-- A ball whose body velocity went to +∞ (non-finite but not NaN). -/
def infVelBall : Part0.BallState :=
  { Part0.initBall with velocity := ⟨.posInf, .fin 0, .fin 0⟩,
                        checkpoint := ⟨8, 1, 0⟩ }

/-- A ball whose body velocity went to NaN. -/
def nanVelBall : Part0.BallState :=
  { Part0.initBall with velocity := ⟨.nan, .fin 3, .fin 0⟩,
                        checkpoint := ⟨8, 1, 0⟩ }

/-- C2 counterexample: with an infinite (non-finite) velocity the
integrity check does nothing at all — no respawn, the bad velocity stays;
with a NaN velocity it only zeroes the velocity in place — the ball stays
at (0,2,0) instead of being teleported to its checkpoint (8,1,0), so no
"teleport plus full state reset" happens in either velocity case. -/
theorem ensurePhysicsIntegrity_velocity_no_respawn :
    (Part0.ensurePhysicsIntegrity infVelBall).bodyPos = ⟨0, 2, 0⟩ ∧
    (Part0.ensurePhysicsIntegrity infVelBall).velocity = ⟨.posInf, .fin 0, .fin 0⟩ ∧
    infVelBall.checkpoint = ⟨8, 1, 0⟩ ∧
    (Part0.ensurePhysicsIntegrity nanVelBall).bodyPos = ⟨0, 2, 0⟩ ∧
    (Part0.ensurePhysicsIntegrity nanVelBall).velocity = JsVec3.zero := by
  norm_num [infVelBall, nanVelBall, Part0.ensurePhysicsIntegrity, Part0.fixDampingStage,
    Part0.fixNaNVelocityStage, Part0.outOfBounds, Part0.respawn, Part0.shrink,
    Part0.initBall, Part0.initialPosition, JsNum.isNaN, JsVec3.zero, abs]

/-- C2 (amended): `ensurePhysicsIntegrity` recovers locally and never
raises (it is a total function): when every position coordinate has
magnitude ≤ 100 it never moves the ball — a NaN velocity component only
gets the velocity zeroed in place (an infinite one is not even detected);
only when some position coordinate exceeds magnitude 100 does it respawn
at the checkpoint with the full state reset. -/
theorem ensurePhysicsIntegrity_spec (s : Part0.BallState) :
    (¬(100 < |s.bodyPos.x| ∨ 100 < |s.bodyPos.y| ∨ 100 < |s.bodyPos.z|) →
      (Part0.ensurePhysicsIntegrity s).bodyPos = s.bodyPos ∧
      (Part0.ensurePhysicsIntegrity s).checkpoint = s.checkpoint ∧
      ((s.velocity.x.isNaN || s.velocity.y.isNaN || s.velocity.z.isNaN) = true →
        (Part0.ensurePhysicsIntegrity s).velocity = JsVec3.zero) ∧
      ((s.velocity.x.isNaN || s.velocity.y.isNaN || s.velocity.z.isNaN) = false →
        (Part0.ensurePhysicsIntegrity s).velocity = s.velocity)) ∧
    ((100 < |s.bodyPos.x| ∨ 100 < |s.bodyPos.y| ∨ 100 < |s.bodyPos.z|) →
      (Part0.ensurePhysicsIntegrity s).bodyPos = s.checkpoint ∧
      (Part0.ensurePhysicsIntegrity s).velocity = JsVec3.zero ∧
      (Part0.ensurePhysicsIntegrity s).angularVelocity = ⟨0, 0, 0⟩ ∧
      (Part0.ensurePhysicsIntegrity s).trailLen = 0 ∧
      (Part0.ensurePhysicsIntegrity s).isEnlarged = false ∧
      (Part0.ensurePhysicsIntegrity s).isAntiGravity = false ∧
      (Part0.ensurePhysicsIntegrity s).speedTimer = none) := by
  obtain ⟨hd1, hd2, hd3, hd4, -⟩ := fixDampingStage_proj s
  obtain ⟨hn1, -, hn3, -, -, -, -, -, hn9, hn10⟩ :=
    fixNaNVelocityStage_proj (Part0.fixDampingStage s)
  have hbp :
      (Part0.fixNaNVelocityStage (Part0.fixDampingStage s)).bodyPos = s.bodyPos := by
    rw [hn1, hd1]
  have hcp :
      (Part0.fixNaNVelocityStage (Part0.fixDampingStage s)).checkpoint = s.checkpoint := by
    rw [hn3, hd3]
  have hoob :
      Part0.outOfBounds (Part0.fixNaNVelocityStage (Part0.fixDampingStage s)) ↔
        (100 < |s.bodyPos.x| ∨ 100 < |s.bodyPos.y| ∨ 100 < |s.bodyPos.z|) := by
    unfold Part0.outOfBounds
    rw [hbp]
  constructor
  · intro hb
    have hno : ¬ Part0.outOfBounds (Part0.fixNaNVelocityStage (Part0.fixDampingStage s)) := by
      rw [hoob]; exact hb
    have he : Part0.ensurePhysicsIntegrity s =
        Part0.fixNaNVelocityStage (Part0.fixDampingStage s) := by
      simp only [Part0.ensurePhysicsIntegrity]
      rw [if_neg hno]
    rw [he]
    refine ⟨hbp, hcp, ?_, ?_⟩
    · intro hnan
      apply hn9
      rw [hd4]
      exact hnan
    · intro hfin
      rw [hn10 (by rw [hd4]; exact hfin), hd4]
  · intro hb
    have hyes : Part0.outOfBounds (Part0.fixNaNVelocityStage (Part0.fixDampingStage s)) := by
      rw [hoob]; exact hb
    have he : Part0.ensurePhysicsIntegrity s =
        Part0.respawn (Part0.fixNaNVelocityStage (Part0.fixDampingStage s)) := by
      simp only [Part0.ensurePhysicsIntegrity]
      rw [if_pos hyes]
    obtain ⟨hr1, -, -, hr4, hr5, hr6, hr7, hr8, hr9, -⟩ :=
      respawn_fields (Part0.fixNaNVelocityStage (Part0.fixDampingStage s))
    rw [he]
    exact ⟨by rw [hr1, hcp], hr4, hr5, hr6, hr7, hr8, hr9⟩

/-- A ball displaced far out of the world (y = 200). -/
def farBall : Part0.BallState :=
  { Part0.initBall with bodyPos := ⟨0, 200, 0⟩, checkpoint := ⟨8, 1, 0⟩ }

/-- Witness for `ensurePhysicsIntegrity_spec`: the out-of-bounds ball is
teleported to its checkpoint, the in-bounds ball with a finite velocity is
left alone. -/
theorem ensurePhysicsIntegrity_spec_witness :
    (Part0.ensurePhysicsIntegrity farBall).bodyPos = farBall.checkpoint ∧
    (Part0.ensurePhysicsIntegrity Part0.initBall).velocity = Part0.initBall.velocity :=
  ⟨((ensurePhysicsIntegrity_spec farBall).2
      (Or.inr (Or.inl (by norm_num [farBall, Part0.initBall, abs])))).1,
   ((ensurePhysicsIntegrity_spec Part0.initBall).1
      (by norm_num [Part0.initBall, Part0.initialPosition, abs])).2.2.2
      (by norm_num [Part0.initBall, JsVec3.zero, JsNum.isNaN])⟩

/-- C6: `jump()` performs its full effect (upward impulse — reduced by the
0.8 factor when enlarged — ground flag cleared, cooldown reset to the
fixed 0.3 s, angular velocity zeroed) exactly when (`isOnGround` or
anti-gravity) and the cooldown timer is ≤ 0; in every other state it is an
identity (benign no-op, no error possible since it is a total function);
consequently `jump` is idempotent: a second call inside the fresh 0.3 s
cooldown window changes nothing and imparts no second impulse. -/
theorem jump_succeeds_iff_grounded_and_cooled (s : Part0.BallState) :
    ((s.isOnGround || s.isAntiGravity) = true → s.jumpCooldown ≤ 0 →
      Part0.jump s = { s with
        velocity := { s.velocity with
          y := s.velocity.y.add (.fin
            ((if s.isEnlarged then Part0.jumpForce * 0.8 else Part0.jumpForce) / s.bodyMass)) },
        isOnGround := false,
        jumpCooldown := 0.3,
        angularVelocity := ⟨0, 0, 0⟩ }) ∧
    (((s.isOnGround || s.isAntiGravity) = false ∨ 0 < s.jumpCooldown) →
      Part0.jump s = s) ∧
    Part0.jump (Part0.jump s) = Part0.jump s := by
  have hstop : ∀ t : Part0.BallState, 0 < t.jumpCooldown → Part0.jump t = t := by
    intro t ht
    unfold Part0.jump
    rw [if_neg]
    rintro ⟨-, h2⟩
    exact absurd h2 (not_le.mpr ht)
  have hneg : ((s.isOnGround || s.isAntiGravity) = false ∨ 0 < s.jumpCooldown) →
      ¬((s.isOnGround || s.isAntiGravity) = true ∧ s.jumpCooldown ≤ 0) := by
    rintro (h | h) ⟨h1, h2⟩
    · rw [h] at h1
      exact absurd h1 (by simp)
    · exact absurd h2 (not_le.mpr h)
  refine ⟨?_, ?_, ?_⟩
  · intro hg hc
    unfold Part0.jump
    rw [if_pos ⟨hg, hc⟩]
  · intro h
    unfold Part0.jump
    rw [if_neg (hneg h)]
  · by_cases hb : (s.isOnGround || s.isAntiGravity) = true ∧ s.jumpCooldown ≤ 0
    · have h1 : Part0.jump s = { s with
          velocity := { s.velocity with
            y := s.velocity.y.add (.fin
              ((if s.isEnlarged then Part0.jumpForce * 0.8 else Part0.jumpForce) / s.bodyMass)) },
          isOnGround := false,
          jumpCooldown := 0.3,
          angularVelocity := ⟨0, 0, 0⟩ } := by
        unfold Part0.jump
        rw [if_pos hb]
      rw [h1]
      apply hstop
      norm_num
    · have h1 : Part0.jump s = s := by
        unfold Part0.jump
        rw [if_neg hb]
      rw [h1, h1]

/-- A grounded ball ready to jump. -/
def jumpReady : Part0.BallState := { Part0.initBall with isOnGround := true }

/-- Witness for `jump_succeeds_iff_grounded_and_cooled`: the grounded
fresh ball jumps (velocity.y becomes 10), the airborne fresh ball is left
unchanged. -/
theorem jump_succeeds_iff_grounded_and_cooled_witness :
    Part0.jump jumpReady = { jumpReady with
      velocity := ⟨.fin 0, .fin 10, .fin 0⟩, isOnGround := false,
      jumpCooldown := 0.3, angularVelocity := ⟨0, 0, 0⟩ } ∧
    Part0.jump Part0.initBall = Part0.initBall :=
  ⟨by
    have h := (jump_succeeds_iff_grounded_and_cooled jumpReady).1
      (by norm_num [jumpReady, Part0.initBall]) (by norm_num [jumpReady, Part0.initBall])
    rw [h]
    norm_num [jumpReady, Part0.initBall, Part0.jumpForce, JsNum.add, JsVec3.zero],
   (jump_succeeds_iff_grounded_and_cooled Part0.initBall).2.1
      (Or.inl (by norm_num [Part0.initBall]))⟩

/-- C7: `enlarge()` is a no-op when already enlarged and `shrink()` a
no-op when not enlarged; and for a not-enlarged ball, `enlarge()` followed
by `shrink()` preserves the linear and angular velocity (each body swap
clones and re-applies them) and the position, ends not-enlarged, and puts
radius, mass and the damping profile back at the normal-body constants —
which equal the pre-enlarge values whenever the starting body carried them
(as every not-enlarged body built by `init`/`shrink` does: radius 0.5,
mass 1, dampings 0.1 from `createSphere`). -/
theorem enlarge_shrink_roundtrip (s : MainBall.MBall) :
    (s.isEnlarged = true → MainBall.enlarge s = s) ∧
    (s.isEnlarged = false → MainBall.shrink s = s) ∧
    (s.isEnlarged = false →
      (MainBall.shrink (MainBall.enlarge s)).velocity = s.velocity ∧
      (MainBall.shrink (MainBall.enlarge s)).angularVelocity = s.angularVelocity ∧
      (MainBall.shrink (MainBall.enlarge s)).position = s.position ∧
      (MainBall.shrink (MainBall.enlarge s)).isEnlarged = false ∧
      (s.bodyRadius = MainBall.normalRadius →
        (MainBall.shrink (MainBall.enlarge s)).bodyRadius = s.bodyRadius) ∧
      (s.bodyMass = MainBall.massAttr →
        (MainBall.shrink (MainBall.enlarge s)).bodyMass = s.bodyMass) ∧
      (s.linearDamping = 0.1 →
        (MainBall.shrink (MainBall.enlarge s)).linearDamping = s.linearDamping) ∧
      (s.angularDamping = 0.1 →
        (MainBall.shrink (MainBall.enlarge s)).angularDamping = s.angularDamping)) := by
  refine ⟨?_, ?_, ?_⟩
  · intro h
    simp [MainBall.enlarge, h]
  · intro h
    simp [MainBall.shrink, h]
  · intro h
    refine ⟨?_, ?_, ?_, ?_, fun h1 => ?_, fun h2 => ?_, fun h3 => ?_, fun h4 => ?_⟩
    · simp [MainBall.enlarge, MainBall.shrink, h]
    · simp [MainBall.enlarge, MainBall.shrink, h]
    · simp [MainBall.enlarge, MainBall.shrink, h]
    · simp [MainBall.enlarge, MainBall.shrink, h]
    · rw [h1]
      simp [MainBall.enlarge, MainBall.shrink, h]
    · rw [h2]
      simp [MainBall.enlarge, MainBall.shrink, h]
    · rw [h3]
      simp [MainBall.enlarge, MainBall.shrink, h]
    · rw [h4]
      simp [MainBall.enlarge, MainBall.shrink, h]

/-- Witness for `enlarge_shrink_roundtrip` on the freshly initialized
ball. -/
theorem enlarge_shrink_roundtrip_witness :
    MainBall.enlarge { MainBall.initMBall with isEnlarged := true } =
      { MainBall.initMBall with isEnlarged := true } ∧
    (MainBall.shrink (MainBall.enlarge MainBall.initMBall)).velocity =
      MainBall.initMBall.velocity ∧
    (MainBall.shrink (MainBall.enlarge MainBall.initMBall)).bodyRadius =
      MainBall.initMBall.bodyRadius :=
  ⟨(enlarge_shrink_roundtrip { MainBall.initMBall with isEnlarged := true }).1 rfl,
   ((enlarge_shrink_roundtrip MainBall.initMBall).2.2 rfl).1,
   ((enlarge_shrink_roundtrip MainBall.initMBall).2.2 rfl).2.2.2.2.1 rfl⟩

/-- At most one of the two movement flags is set. -/
def atMostOneDir (s : MainBall.MBall) : Prop :=
  s.movingLeft = false ∨ s.movingRight = false

/-- One input command: `(true, a)` is `moveLeft(a)`, `(false, a)` is
`moveRight(a)`. -/
def applyMove (op : Bool × Bool) (s : MainBall.MBall) : MainBall.MBall :=
  if op.1 then MainBall.moveLeft op.2 s else MainBall.moveRight op.2 s

/-- A whole sequence of `moveLeft`/`moveRight` calls. -/
def runMoves (ops : List (Bool × Bool)) (s : MainBall.MBall) : MainBall.MBall :=
  ops.foldl (fun t op => applyMove op t) s

/-- Any single movement call leaves at most one direction flag set. -/
lemma applyMove_atMostOne (op : Bool × Bool) (s : MainBall.MBall) :
    atMostOneDir (applyMove op s) := by
  rcases op with ⟨l, a⟩
  cases l <;> cases a <;>
    unfold applyMove MainBall.moveLeft MainBall.moveRight <;>
      simp only [atMostOneDir] <;> split_ifs <;> simp

/-- Any nonempty movement sequence leaves at most one flag set. -/
lemma runMoves_atMostOne (ops : List (Bool × Bool)) :
    ∀ s : MainBall.MBall, ops ≠ [] → atMostOneDir (runMoves ops s) := by
  induction ops with
  | nil => exact fun s h => absurd rfl h
  | cons op rest ih =>
    intro s _
    cases rest with
    | nil => exact applyMove_atMostOne op s
    | cons b t => exact ih (applyMove op s) (by simp)

/-- C9: activating one direction always clears the other flag and slams
the horizontal velocity to the fixed ±8; after ANY nonempty sequence of
`moveLeft(active)` / `moveRight(active)` calls at most one of the two
flags is set; and deactivating a direction while the opposite one is
inactive zeroes the horizontal velocity component, leaving the vertical
(y) and forward (z) components untouched. -/
theorem move_mutual_exclusion (s : MainBall.MBall) :
    ((MainBall.moveLeft true s).movingLeft = true ∧
      (MainBall.moveLeft true s).movingRight = false) ∧
    ((MainBall.moveRight true s).movingRight = true ∧
      (MainBall.moveRight true s).movingLeft = false) ∧
    ((MainBall.moveLeft true s).velocity = ⟨-8, s.velocity.y, s.velocity.z⟩) ∧
    ((MainBall.moveRight true s).velocity = ⟨8, s.velocity.y, s.velocity.z⟩) ∧
    (s.movingRight = false →
      (MainBall.moveLeft false s).velocity = ⟨0, s.velocity.y, s.velocity.z⟩) ∧
    (s.movingLeft = false →
      (MainBall.moveRight false s).velocity = ⟨0, s.velocity.y, s.velocity.z⟩) ∧
    (∀ ops : List (Bool × Bool), ops ≠ [] → atMostOneDir (runMoves ops s)) := by
  refine ⟨⟨?_, ?_⟩, ⟨?_, ?_⟩, ?_, ?_, ?_, ?_, fun ops h => runMoves_atMostOne ops s h⟩
  · simp [MainBall.moveLeft]
  · simp [MainBall.moveLeft]
  · simp [MainBall.moveRight]
  · simp [MainBall.moveRight]
  · simp [MainBall.moveLeft]
  · simp [MainBall.moveRight]
  · intro h
    simp [MainBall.moveLeft, h]
  · intro h
    simp [MainBall.moveRight, h]

/-- Witness for `move_mutual_exclusion`: a deactivation on the fresh ball
zeroes the horizontal velocity, and a concrete two-command sequence ends
with at most one flag set. -/
theorem move_mutual_exclusion_witness :
    (MainBall.moveLeft false MainBall.initMBall).velocity = ⟨0, 0, 0⟩ ∧
    atMostOneDir (runMoves [(true, true), (false, true)] MainBall.initMBall) :=
  ⟨(move_mutual_exclusion MainBall.initMBall).2.2.2.2.1 rfl,
   (move_mutual_exclusion MainBall.initMBall).2.2.2.2.2.2 _ (by simp)⟩

/-- The counting invariant tying the goal counters to the hoop flags:
collected count plus remaining uncollected hoops equals the total. -/
def hoopInv (s : Main.LevelState) : Prop :=
  s.hoopsCollected + (s.hoops.filter (fun h => !h.collected)).length = s.totalHoops

/-- A `checkHoopCollisions` sweep for each entry of a ball-input list. -/
def runHoopChecks (ins : List (Vec3 × Bool)) (s : Main.LevelState) : Main.LevelState :=
  ins.foldl (fun t i => (Main.checkHoopCollisions i.1 i.2 t).1) s

/-- The hoop sweep only ever raises `collected` flags (never lowers one)
and never moves a hoop. -/
lemma collectHoops_mono (b : Vec3) (e : Bool) :
    ∀ hs : List Main.Hoop,
      List.Forall₂ (fun h h' => (h.collected = true → h'.collected = true) ∧ h.position = h'.position)
        hs (Main.collectHoops b e hs).1
  | [] => List.Forall₂.nil
  | h :: t => by
    unfold Main.collectHoops
    split_ifs with hc
    · exact List.Forall₂.cons ⟨fun _ => rfl, rfl⟩
        ((List.forall₂_same).mpr fun a _ => ⟨id, rfl⟩)
    · exact List.Forall₂.cons ⟨id, rfl⟩ (collectHoops_mono b e t)

/-- When the sweep reports no hit, the hoop list is returned unchanged. -/
lemma collectHoops_false (b : Vec3) (e : Bool) :
    ∀ hs : List Main.Hoop,
      (Main.collectHoops b e hs).2 = false → (Main.collectHoops b e hs).1 = hs
  | [] => fun _ => rfl
  | h :: t => by
    unfold Main.collectHoops
    split_ifs with hc
    · intro hfalse
      exact absurd hfalse (by simp)
    · intro hfalse
      simp only at hfalse
      rw [show (h :: (Main.collectHoops b e t).1, (Main.collectHoops b e t).2).1
            = h :: (Main.collectHoops b e t).1 from rfl]
      rw [collectHoops_false b e t hfalse]

/-- When the sweep reports a hit, exactly one hoop moved from uncollected
to collected. -/
lemma collectHoops_true_count (b : Vec3) (e : Bool) :
    ∀ hs : List Main.Hoop,
      (Main.collectHoops b e hs).2 = true →
        (hs.filter (fun h => !h.collected)).length =
          ((Main.collectHoops b e hs).1.filter (fun h => !h.collected)).length + 1
  | [] => fun h => absurd h (by simp [Main.collectHoops])
  | h :: t => by
    unfold Main.collectHoops
    split_ifs with hc
    · intro _
      have hun : h.collected = false := by
        rcases Bool.eq_false_or_eq_true h.collected with hb | hb
        · rw [hb] at hc
          simp at hc
        · exact hb
      simp [hun]
    · intro htrue
      simp only at htrue
      rcases Bool.eq_false_or_eq_true h.collected with hb | hb <;>
        simp [hb, collectHoops_true_count b e t htrue]

/-- If every still-uncollected hoop is out of range, the sweep does
nothing and reports no hit (an already-collected hoop in range is
skipped). -/
lemma collectHoops_skip (b : Vec3) (e : Bool) :
    ∀ hs : List Main.Hoop,
      (∀ h ∈ hs, h.collected = false →
        withinDist b h.position (Main.ballCollisionRadius e + 0.6) = false) →
      Main.collectHoops b e hs = (hs, false)
  | [] => fun _ => rfl
  | h :: t => by
    intro hout
    unfold Main.collectHoops
    split_ifs with hc
    · exfalso
      rcases Bool.eq_false_or_eq_true h.collected with hb | hb
      · rw [hb] at hc
        simp at hc
      · have := hout h (by simp) hb
        rw [this] at hc
        simp at hc
    · rw [collectHoops_skip b e t (fun x hx => hout x (by simp [hx]))]

/-- A single `checkHoopCollisions` call preserves the counting
invariant. -/
lemma checkHoop_inv (b : Vec3) (e : Bool) (s : Main.LevelState) :
    hoopInv s → hoopInv (Main.checkHoopCollisions b e s).1 := by
  intro hinv
  unfold hoopInv at hinv ⊢
  unfold Main.checkHoopCollisions
  dsimp only
  rcases Bool.eq_false_or_eq_true (Main.collectHoops b e s.hoops).2 with hb | hb
  · have hcount := collectHoops_true_count b e s.hoops hb
    simp only [hb, if_true]
    omega
  · rw [collectHoops_false b e s.hoops hb]
    simp only [hb, Bool.false_eq_true, if_false]
    exact hinv

/-- Any sequence of hoop sweeps preserves the counting invariant. -/
lemma runHoopChecks_inv (ins : List (Vec3 × Bool)) :
    ∀ s : Main.LevelState, hoopInv s → hoopInv (runHoopChecks ins s) := by
  induction ins with
  | nil => exact fun s h => h
  | cons i rest ih =>
    intro s h
    exact ih (Main.checkHoopCollisions i.1 i.2 s).1 (checkHoop_inv i.1 i.2 s h)

/-- C8: hoop (goal) collection is one-way and idempotent — a sweep only
ever raises `collected` flags; if the only hoops the ball is touching are
already collected, the counter does not move and no hit is reported; each
sweep preserves the counting invariant; and along any sequence of sweeps
started in a state satisfying it (as a freshly loaded level does),
`hoopsCollected` never exceeds `totalHoops`. -/
theorem hoop_collection_one_way (b : Vec3) (e : Bool) (s : Main.LevelState) :
    List.Forall₂ (fun h h' => (h.collected = true → h'.collected = true) ∧ h.position = h'.position)
      s.hoops (Main.checkHoopCollisions b e s).1.hoops ∧
    ((∀ h ∈ s.hoops, h.collected = false →
        withinDist b h.position (Main.ballCollisionRadius e + 0.6) = false) →
      (Main.checkHoopCollisions b e s).1.hoopsCollected = s.hoopsCollected ∧
      (Main.checkHoopCollisions b e s).2 = false) ∧
    (hoopInv s → hoopInv (Main.checkHoopCollisions b e s).1) ∧
    (∀ ins : List (Vec3 × Bool), hoopInv s →
      (runHoopChecks ins s).hoopsCollected ≤ (runHoopChecks ins s).totalHoops) := by
  refine ⟨collectHoops_mono b e s.hoops, ?_, checkHoop_inv b e s, ?_⟩
  · intro hout
    have hskip := collectHoops_skip b e s.hoops hout
    unfold Main.checkHoopCollisions
    rw [hskip]
    simp
  · intro ins hinv
    have h := runHoopChecks_inv ins s hinv
    unfold hoopInv at h
    omega

/-- The level-1 layout with both hoops already collected (and the counter
at 2, as after both collections). -/
def bothHoopsCollected : Main.LevelState :=
  { Main.loadLevel 1 Main.initLevel with
      hoops := [⟨⟨-12, 2.5, 0⟩, true⟩, ⟨⟨15, 2.5, 0⟩, true⟩],
      hoopsCollected := 2 }

/-- Witness for `hoop_collection_one_way`: a ball dead-center on an
already-collected hoop does not move the counter, and sweeps from the
fresh level keep the counter below the total. -/
theorem hoop_collection_one_way_witness :
    (Main.checkHoopCollisions ⟨-12, 2.5, 0⟩ false bothHoopsCollected).1.hoopsCollected =
      bothHoopsCollected.hoopsCollected ∧
    (runHoopChecks [(⟨-12, 2.5, 0⟩, false), (⟨-12, 2.5, 0⟩, false)]
        (Main.loadLevel 1 Main.initLevel)).hoopsCollected ≤
      (runHoopChecks [(⟨-12, 2.5, 0⟩, false), (⟨-12, 2.5, 0⟩, false)]
        (Main.loadLevel 1 Main.initLevel)).totalHoops :=
  ⟨((hoop_collection_one_way ⟨-12, 2.5, 0⟩ false bothHoopsCollected).2.1
      (by
        intro h hmem hc
        rw [show bothHoopsCollected.hoops
              = [⟨⟨-12, 2.5, 0⟩, true⟩, ⟨⟨15, 2.5, 0⟩, true⟩] from rfl] at hmem
        rcases List.mem_cons.mp hmem with rfl | hmem2
        · simp at hc
        · rcases List.mem_singleton.mp hmem2 with rfl
          simp at hc)).1,
   (hoop_collection_one_way ⟨-12, 2.5, 0⟩ false (Main.loadLevel 1 Main.initLevel)).2.2.2
      [(⟨-12, 2.5, 0⟩, false), (⟨-12, 2.5, 0⟩, false)] (by rfl)⟩

/-- An arbitrary frame-tick input (1 s on the clock, 1/60 s delta, ball
resting at spawn). -/
def anyFrame : Game.FrameIn :=
  { now := 1, dtRaw := 1/60, ballBodyPos := ⟨0, 2, 0⟩,
    ballMeshPos := ⟨0, 2, 0⟩, ballVel := JsVec3.zero }

/-- The game right after `start()` then `pause()`. -/
def pausedGame : Game.GameState := Game.pause (Game.start Game.initGame)

/-- C5 counterexample: `pause()` cancels the scheduled animation frame, so
in the paused-via-`pause()` state a tick instant comes and goes with NO
frame executing — in particular the render count does not advance, the
camera and visuals are frozen.  The claim says every scheduled frame still
renders while paused ("visuals remain live"); after `pause()` nothing is
scheduled and nothing renders. -/
theorem pause_cancels_scheduled_frames :
    pausedGame.gamePaused = true ∧
    pausedGame.rafActive = false ∧
    Game.gameLoopStep anyFrame pausedGame = pausedGame ∧
    (Game.gameLoopStep anyFrame pausedGame).renders = pausedGame.renders :=
  ⟨rfl, rfl, rfl, rfl⟩

/-- C5 (amended): `pause()` (from an unpaused state) sets the pause flag
AND cancels the scheduled frame, so no frame at all — not even a render —
runs until `resume()`, which clears the flag and reschedules the loop.
Only when the pause flag is set without cancelling the frame (as the
level-complete interlude does) does a scheduled frame still run, and such
a frame performs exactly the render call: physics, ball/level updates,
collision resolution and game-condition checks are all skipped. -/
theorem pause_resume_render_spec (g : Game.GameState) (inp : Game.FrameIn) :
    (g.gamePaused = false → Game.pause g =
      { g with gamePaused := true, rafActive := false,
               keyLeft := false, keyRight := false,
               keyUp := false, keyDown := false }) ∧
    (g.gamePaused = true → Game.resume g =
      { g with gamePaused := false, rafActive := true }) ∧
    (g.rafActive = false → Game.gameLoopStep inp g = g) ∧
    (g.rafActive = true → g.isRunning = true → g.gamePaused = true →
      Game.advanceTimers inp.now g = g →
      Game.gameLoopStep inp g = { g with renders := g.renders + 1 }) := by
  refine ⟨?_, ?_, ?_, ?_⟩
  · intro h
    unfold Game.pause
    rw [if_neg (by rw [h]; exact Bool.false_ne_true)]
  · intro h
    unfold Game.resume
    rw [if_pos h]
  · intro h
    unfold Game.gameLoopStep
    rw [if_pos (by rw [h]; rfl)]
  · intro h1 h2 h3 ht
    unfold Game.gameLoopStep
    rw [if_neg (by rw [h1]; simp)]
    rw [ht]
    rw [if_neg (by rw [h2]; simp)]
    rw [if_pos h3]

/-- The game during the level-complete interlude: pause flag set while the
frame loop keeps running. -/
def interludeGame : Game.GameState :=
  { (Game.start Game.initGame) with gamePaused := true }

/-- Witness for `pause_resume_render_spec`: pausing the started game, 
resuming it, a dead tick after `pause()`, and a render-only tick during
the interlude. -/
theorem pause_resume_render_spec_witness :
    Game.pause (Game.start Game.initGame) =
      { (Game.start Game.initGame) with
          gamePaused := true, rafActive := false,
          keyLeft := false, keyRight := false, keyUp := false, keyDown := false } ∧
    Game.resume interludeGame = { interludeGame with gamePaused := false, rafActive := true } ∧
    Game.gameLoopStep anyFrame pausedGame = pausedGame ∧
    Game.gameLoopStep anyFrame interludeGame =
      { interludeGame with renders := interludeGame.renders + 1 } :=
  ⟨(pause_resume_render_spec (Game.start Game.initGame) anyFrame).1 rfl,
   (pause_resume_render_spec interludeGame anyFrame).2.1 rfl,
   (pause_resume_render_spec pausedGame anyFrame).2.2.1 rfl,
   (pause_resume_render_spec interludeGame anyFrame).2.2.2 rfl rfl rfl rfl⟩

/-- The adversarial ball position of the double-trigger scenario: within
range of the obstacle at (−5, 0, 0) AND inside the lethal ground band
over no platform. -/
def badPos : Vec3 := ⟨-5, -9/10, 0⟩

/-- A frame tick at instant `t` whose physics outcome leaves the ball at
`badPos`. -/
def badFrame (t : ℚ) : Game.FrameIn :=
  { now := t, dtRaw := 0, ballBodyPos := badPos, ballMeshPos := badPos,
    ballVel := JsVec3.zero }

/-- The freshly started game (lives = 3). -/
def gStart : Game.GameState := Game.start Game.initGame

/-- The ball after an obstacle-hit respawn in a `badPos` frame: body back
at the checkpoint, mesh still at `badPos` (it only syncs next frame). -/
def ballAfterHit : Part0.BallState := { Part0.initBall with meshPos := badPos }

/-- State after the first `badPos` frame: one life lost, respawned. -/
def gAfter1 : Game.GameState :=
  { gStart with lives := 2, renders := 1, physicsSteps := 1, ball := ballAfterHit }

/-- State after the second `badPos` frame: another life lost, respawned. -/
def gAfter2 : Game.GameState :=
  { gAfter1 with lives := 1, renders := 2, physicsSteps := 2 }

/-- State after the third `badPos` frame: the obstacle hit drops lives to
0 (game over, no respawn), then the lethal-ground check in the very same
`checkCollisions` pass fires too and drives lives to −1. -/
def gAfter3 : Game.GameState :=
  { gAfter2 with
      lives := -1, isRunning := false, renders := 3, physicsSteps := 3,
      ball := { Part0.initBall with
                  bodyPos := badPos, meshPos := badPos,
                  velocity := ⟨.fin 0, .fin 10, .fin 0⟩ },
      flags := ⟨false, false, false, true⟩,
      clearGroundFlagAt := some 5 }

set_option maxHeartbeats 2000000 in
/-- First bad frame: obstacle hit, life lost, respawn. -/
lemma stepBad1 : Game.gameLoopStep (badFrame 1) gStart = gAfter1 := by
  norm_num [Game.gameLoopStep, Game.runningFrame, Game.advanceTimers, Game.fireCheckpointFlagClear,
    Game.firePowerUpFlagClear, Game.fireGroundFlagClear, Game.fireLevelAdvance,
    Game.checkCollisions,
    Game.obstacleStep, Game.hoopStep, Game.checkpointStep, Game.powerUpStep,
    Game.fallStep, Game.checkGroundContact, Game.checkGameConditions,
    Game.completeLevel, Game.loseLife, Game.gameOver, Game.addScore,
    Game.applyPowerUp, Game.onPlatformCheck, Game.start, Game.initGame,
    Main.loadLevel, Main.createTestLevel, Main.createBasicLevel,
    Main.createIntermediateLevel, Main.clearLevel, Main.initLevel,
    Main.staticObstacle, Main.movingObstacle, Main.checkObstacleCollisions,
    Main.checkHoopCollisions, Main.collectHoops, Main.checkCheckpointCollisions,
    Main.activateCheckpoints, Main.checkPowerUpCollisions, Main.collectPowerUps,
    Main.levelUpdate, Main.updateObstacle, Main.syncObstacleMeshes,
    Main.isComplete, Main.ballCollisionRadius,
    Part0.initBall, Part0.respawn, Part0.shrink, Part0.fireSpeedTimer,
    Part0.fireAntiGravTimer, Part0.setCheckpoint, Part0.initialPosition,
    withinDist, Vec3.distSq, JsVec3.zero, badFrame, badPos,
    gStart, gAfter1, ballAfterHit, abs_lt, decide_eq_true_eq]

set_option maxHeartbeats 2000000 in
/-- Second bad frame: same again, down to a single life. -/
lemma stepBad2 : Game.gameLoopStep (badFrame 2) gAfter1 = gAfter2 := by
  norm_num [Game.gameLoopStep, Game.runningFrame, Game.advanceTimers, Game.fireCheckpointFlagClear,
    Game.firePowerUpFlagClear, Game.fireGroundFlagClear, Game.fireLevelAdvance,
    Game.checkCollisions,
    Game.obstacleStep, Game.hoopStep, Game.checkpointStep, Game.powerUpStep,
    Game.fallStep, Game.checkGroundContact, Game.checkGameConditions,
    Game.completeLevel, Game.loseLife, Game.gameOver, Game.addScore,
    Game.applyPowerUp, Game.onPlatformCheck, Game.start, Game.initGame,
    Main.loadLevel, Main.createTestLevel, Main.createBasicLevel,
    Main.createIntermediateLevel, Main.clearLevel, Main.initLevel,
    Main.staticObstacle, Main.movingObstacle, Main.checkObstacleCollisions,
    Main.checkHoopCollisions, Main.collectHoops, Main.checkCheckpointCollisions,
    Main.activateCheckpoints, Main.checkPowerUpCollisions, Main.collectPowerUps,
    Main.levelUpdate, Main.updateObstacle, Main.syncObstacleMeshes,
    Main.isComplete, Main.ballCollisionRadius,
    Part0.initBall, Part0.respawn, Part0.shrink, Part0.fireSpeedTimer,
    Part0.fireAntiGravTimer, Part0.setCheckpoint, Part0.initialPosition,
    withinDist, Vec3.distSq, JsVec3.zero, badFrame, badPos,
    gStart, gAfter1, gAfter2, ballAfterHit, abs_lt, decide_eq_true_eq]

set_option maxHeartbeats 2000000 in
/-- Third bad frame: the obstacle hit brings lives to 0 (game over, no
respawn), and the lethal-ground check in the same pass decrements again
to −1. -/
lemma stepBad3 : Game.gameLoopStep (badFrame 3) gAfter2 = gAfter3 := by
  norm_num [Game.gameLoopStep, Game.runningFrame, Game.advanceTimers, Game.fireCheckpointFlagClear,
    Game.firePowerUpFlagClear, Game.fireGroundFlagClear, Game.fireLevelAdvance,
    Game.checkCollisions,
    Game.obstacleStep, Game.hoopStep, Game.checkpointStep, Game.powerUpStep,
    Game.fallStep, Game.checkGroundContact, Game.checkGameConditions,
    Game.completeLevel, Game.loseLife, Game.gameOver, Game.addScore,
    Game.applyPowerUp, Game.onPlatformCheck, Game.start, Game.initGame,
    Main.loadLevel, Main.createTestLevel, Main.createBasicLevel,
    Main.createIntermediateLevel, Main.clearLevel, Main.initLevel,
    Main.staticObstacle, Main.movingObstacle, Main.checkObstacleCollisions,
    Main.checkHoopCollisions, Main.collectHoops, Main.checkCheckpointCollisions,
    Main.activateCheckpoints, Main.checkPowerUpCollisions, Main.collectPowerUps,
    Main.levelUpdate, Main.updateObstacle, Main.syncObstacleMeshes,
    Main.isComplete, Main.ballCollisionRadius,
    Part0.initBall, Part0.respawn, Part0.shrink, Part0.fireSpeedTimer,
    Part0.fireAntiGravTimer, Part0.setCheckpoint, Part0.initialPosition,
    withinDist, Vec3.distSq, JsVec3.zero, badFrame, badPos,
    gStart, gAfter1, gAfter2, gAfter3, ballAfterHit, abs_lt, decide_eq_true_eq]

/-- The whole three-frame run lands on the `gAfter3` state. -/
lemma runFrames_bad : Game.runFrames [badFrame 1, badFrame 2, badFrame 3] gStart = gAfter3 := by
  unfold Game.runFrames
  simp only [List.foldl_cons, List.foldl_nil]
  rw [stepBad1, stepBad2, stepBad3]

/-- C4 counterexample: starting from the fresh session (lives = 3), three
frame ticks whose physics outcome parks the ball at (−5, −0.9, 0) — in
range of the obstacle at (−5, 0, 0) and simultaneously in the lethal
ground band over no platform — leave `lives = −1`: in the third
`checkCollisions` pass the obstacle hit drops lives from 1 to 0 (game
over, no respawn) and `checkGroundContact` then decrements again.  This
refutes the claimed `lives ≥ 0` invariant. -/
theorem lives_reach_minus_one :
    gStart.lives = 3 ∧
    (Game.runFrames [badFrame 1, badFrame 2, badFrame 3] gStart).lives = -1 :=
  ⟨rfl, by rw [runFrames_bad]; rfl⟩

/-- Source `enlarge` never moves the body or the respawn point. -/
lemma enlarge_keeps (b : Part0.BallState) :
    (Part0.enlarge b).bodyPos = b.bodyPos ∧ (Part0.enlarge b).checkpoint = b.checkpoint := by
  unfold Part0.enlarge
  split_ifs <;> exact ⟨rfl, rfl⟩

/-- Source `shrink` never moves the body or the respawn point. -/
lemma shrink_keeps (b : Part0.BallState) :
    (Part0.shrink b).bodyPos = b.bodyPos ∧ (Part0.shrink b).checkpoint = b.checkpoint := by
  unfold Part0.shrink
  split_ifs <;> exact ⟨rfl, rfl⟩

/-- Source `increaseSpeed` never moves the body or the respawn point. -/
lemma increaseSpeed_keeps (now : ℚ) (b : Part0.BallState) :
    (Part0.increaseSpeed now b).bodyPos = b.bodyPos ∧
    (Part0.increaseSpeed now b).checkpoint = b.checkpoint :=
  ⟨rfl, rfl⟩

/-- Source `enableAntiGravity` never moves the body or the respawn point. -/
lemma enableAntiGravity_keeps (now : ℚ) (b : Part0.BallState) :
    (Part0.enableAntiGravity now b).bodyPos = b.bodyPos ∧
    (Part0.enableAntiGravity now b).checkpoint = b.checkpoint :=
  ⟨rfl, rfl⟩

/-- The speed expiry callback never moves the body or the respawn
point. -/
lemma fireSpeedTimer_keeps (now : ℚ) (b : Part0.BallState) :
    (Part0.fireSpeedTimer now b).bodyPos = b.bodyPos ∧
    (Part0.fireSpeedTimer now b).checkpoint = b.checkpoint := by
  rcases h : b.speedTimer with _ | tm
  · simp [Part0.fireSpeedTimer, h]
  · simp only [Part0.fireSpeedTimer, h]
    split_ifs <;> exact ⟨rfl, rfl⟩

/-- The anti-gravity expiry callback never moves the body or the respawn
point. -/
lemma fireAntiGravTimer_keeps (now : ℚ) (b : Part0.BallState) :
    (Part0.fireAntiGravTimer now b).bodyPos = b.bodyPos ∧
    (Part0.fireAntiGravTimer now b).checkpoint = b.checkpoint := by
  rcases h : b.antiGravTimerAt with _ | e
  · simp [Part0.fireAntiGravTimer, h]
  · simp only [Part0.fireAntiGravTimer, h]
    split_ifs <;> exact ⟨rfl, rfl⟩

/-- Source `reset` moves the respawn point back to the spawn (0, 2, 0). -/
lemma reset_checkpoint (b : Part0.BallState) :
    (Part0.reset b).checkpoint = Part0.initialPosition := by
  unfold Part0.reset
  exact (respawn_fields { b with checkpoint := Part0.initialPosition }).2.1

/-- The exhaustive account of `loseLife`: lives drop by exactly one; the
level and the respawn point are untouched; with lives remaining the ball
teleports to the respawn point and the loop flag is untouched; with lives
exhausted the loop stops and the ball is untouched. -/
lemma loseLife_spec (g : Game.GameState) :
    (Game.loseLife g).lives = g.lives - 1 ∧
    (Game.loseLife g).level = g.level ∧
    (Game.loseLife g).ball.checkpoint = g.ball.checkpoint ∧
    (1 < g.lives → (Game.loseLife g).isRunning = g.isRunning ∧
      (Game.loseLife g).ball.bodyPos = g.ball.checkpoint) ∧
    (g.lives ≤ 1 → (Game.loseLife g).isRunning = false ∧
      (Game.loseLife g).ball = g.ball) := by
  unfold Game.loseLife Game.gameOver
  dsimp only
  split_ifs with h
  · obtain ⟨h1, h2, -, -, -, -, -, -, -, -⟩ := respawn_fields g.ball
    exact ⟨rfl, rfl, h2, fun _ => ⟨rfl, h1⟩, fun hle => absurd h (by omega)⟩
  · exact ⟨rfl, rfl, rfl, fun hlt => absurd hlt (by omega), fun _ => ⟨rfl, rfl⟩⟩

/-- Any property of the checkpoint positions survives the activation sweep
and holds of a returned hit position. -/
lemma activateCheckpoints_pos (b : Vec3) (e : Bool) (P : Vec3 → Prop) :
    ∀ cs : List Main.CheckpointE, (∀ c ∈ cs, P c.position) →
      (∀ c ∈ (Main.activateCheckpoints b e cs).1, P c.position) ∧
      (∀ p, (Main.activateCheckpoints b e cs).2 = some p → P p)
  | [] => by
    intro _
    exact ⟨by simp [Main.activateCheckpoints], by simp [Main.activateCheckpoints]⟩
  | c :: t => by
    intro hP
    unfold Main.activateCheckpoints
    split_ifs with hc
    · refine ⟨?_, ?_⟩
      · intro d hd
        rcases List.mem_cons.mp hd with rfl | hd2
        · exact hP c (by simp)
        · exact hP d (by simp [hd2])
      · intro p hp
        have : c.position = p := by
          simpa using hp
        rw [← this]
        exact hP c (by simp)
    · obtain ⟨ih1, ih2⟩ :=
        activateCheckpoints_pos b e P t (fun x hx => hP x (by simp [hx]))
      refine ⟨?_, ?_⟩
      · intro d hd
        rcases List.mem_cons.mp hd with rfl | hd2
        · exact hP d (by simp)
        · exact ih1 d hd2
      · exact ih2

/-- Source `obstacleStep` drops at most one life and leaves respawn point and
checkpoint entities alone. -/
lemma obstacleStep_fields (g : Game.GameState) :
    g.lives - 1 ≤ (Game.obstacleStep g).lives ∧
    (Game.obstacleStep g).lives ≤ g.lives ∧
    (Game.obstacleStep g).ball.checkpoint = g.ball.checkpoint ∧
    (Game.obstacleStep g).level.checkpoints = g.level.checkpoints := by
  unfold Game.obstacleStep
  split_ifs with h
  · obtain ⟨h1, h2, h3, -, -⟩ := loseLife_spec g
    exact ⟨by omega, by omega, h3, by rw [h2]⟩
  · exact ⟨by omega, by omega, rfl, rfl⟩

/-- Source `hoopStep` touches only the hoop list, the counter and the score. -/
lemma hoopStep_keeps (g : Game.GameState) :
    (Game.hoopStep g).lives = g.lives ∧
    (Game.hoopStep g).isRunning = g.isRunning ∧
    (Game.hoopStep g).ball = g.ball ∧
    (Game.hoopStep g).level.checkpoints = g.level.checkpoints := by
  unfold Game.hoopStep Game.addScore Main.checkHoopCollisions
  dsimp only
  split_ifs <;> exact ⟨rfl, rfl, rfl, rfl⟩

/-- Source `checkpointStep` keeps lives, the loop flag and the ball body; when
every checkpoint entity sits at height 1, the entities still do afterward
and a respawn point at height ≥ 1 stays at height ≥ 1 (it is either kept
or overwritten with an entity position). -/
lemma checkpointStep_keeps (now : ℚ) (g : Game.GameState) :
    (Game.checkpointStep now g).lives = g.lives ∧
    (Game.checkpointStep now g).isRunning = g.isRunning ∧
    (Game.checkpointStep now g).ball.bodyPos = g.ball.bodyPos ∧
    ((∀ c ∈ g.level.checkpoints, c.position.y = 1) →
      (∀ c ∈ (Game.checkpointStep now g).level.checkpoints, c.position.y = 1) ∧
      (1 ≤ g.ball.checkpoint.y → 1 ≤ (Game.checkpointStep now g).ball.checkpoint.y)) := by
  have hact := fun hcs => activateCheckpoints_pos g.ball.meshPos g.ball.isEnlarged
    (fun p => p.y = 1) g.level.checkpoints hcs
  rcases hr : (Main.activateCheckpoints g.ball.meshPos g.ball.isEnlarged g.level.checkpoints).2
    with _ | cpos
  · have heq : Game.checkpointStep now g =
        { g with level := { g.level with
            checkpoints := (Main.activateCheckpoints g.ball.meshPos g.ball.isEnlarged
              g.level.checkpoints).1 } } := by
      unfold Game.checkpointStep Main.checkCheckpointCollisions
      dsimp only
      rw [hr]
    rw [heq]
    exact ⟨rfl, rfl, rfl, fun hcs => ⟨(hact hcs).1, fun hy => hy⟩⟩
  · rcases Bool.eq_false_or_eq_true g.flags.checkpointReached with hf | hf
    · have heq : Game.checkpointStep now g =
          { g with level := { g.level with
              checkpoints := (Main.activateCheckpoints g.ball.meshPos g.ball.isEnlarged
                g.level.checkpoints).1 } } := by
        unfold Game.checkpointStep Main.checkCheckpointCollisions
        dsimp only
        rw [hr]
        dsimp only
        simp only [hf, if_true]
      rw [heq]
      exact ⟨rfl, rfl, rfl, fun hcs => ⟨(hact hcs).1, fun hy => hy⟩⟩
    · have heq : Game.checkpointStep now g =
          Game.addScore 50
            { g with
                level := { g.level with
                  checkpoints := (Main.activateCheckpoints g.ball.meshPos g.ball.isEnlarged
                    g.level.checkpoints).1 },
                ball := Part0.setCheckpoint cpos g.ball,
                flags := { g.flags with checkpointReached := true },
                clearCheckpointFlagAt := some (now + 1) } := by
        unfold Game.checkpointStep Main.checkCheckpointCollisions
        dsimp only
        rw [hr]
        dsimp only
        simp only [hf, Bool.false_eq_true, if_false]
      rw [heq]
      unfold Game.addScore Part0.setCheckpoint
      refine ⟨rfl, rfl, rfl, fun hcs => ⟨(hact hcs).1, fun _ => ?_⟩⟩
      have hy1 := (hact hcs).2 cpos hr
      dsimp only at hy1 ⊢
      rw [hy1]

/-- Source `applyPowerUp` never moves the ball, its respawn point, or the
level. -/
lemma applyPowerUp_keeps (now : ℚ) (k : Main.PowerUpKind) (g : Game.GameState) :
    (Game.applyPowerUp now k g).lives = g.lives ∧
    (Game.applyPowerUp now k g).isRunning = g.isRunning ∧
    (Game.applyPowerUp now k g).ball.bodyPos = g.ball.bodyPos ∧
    (Game.applyPowerUp now k g).ball.checkpoint = g.ball.checkpoint ∧
    (Game.applyPowerUp now k g).level = g.level := by
  cases k
  · exact ⟨rfl, rfl, (enlarge_keeps g.ball).1, (enlarge_keeps g.ball).2, rfl⟩
  · exact ⟨rfl, rfl, (shrink_keeps g.ball).1, (shrink_keeps g.ball).2, rfl⟩
  · exact ⟨rfl, rfl, rfl, rfl, rfl⟩
  · exact ⟨rfl, rfl, rfl, rfl, rfl⟩

/-- Source `powerUpStep` keeps lives, the loop flag, the ball body, the respawn
point and the checkpoint entities. -/
lemma powerUpStep_keeps (now : ℚ) (g : Game.GameState) :
    (Game.powerUpStep now g).lives = g.lives ∧
    (Game.powerUpStep now g).isRunning = g.isRunning ∧
    (Game.powerUpStep now g).ball.bodyPos = g.ball.bodyPos ∧
    (Game.powerUpStep now g).ball.checkpoint = g.ball.checkpoint ∧
    (Game.powerUpStep now g).level.checkpoints = g.level.checkpoints := by
  rcases hr : (Main.collectPowerUps g.ball.meshPos g.ball.isEnlarged g.level.powerUps).2
    with _ | k
  · have heq : Game.powerUpStep now g =
        { g with level := { g.level with
            powerUps := (Main.collectPowerUps g.ball.meshPos g.ball.isEnlarged
              g.level.powerUps).1 } } := by
      unfold Game.powerUpStep Main.checkPowerUpCollisions
      dsimp only
      rw [hr]
    rw [heq]
    exact ⟨rfl, rfl, rfl, rfl, rfl⟩
  · rcases Bool.eq_false_or_eq_true g.flags.powerUpCollected with hf | hf
    · have heq : Game.powerUpStep now g =
          { g with level := { g.level with
              powerUps := (Main.collectPowerUps g.ball.meshPos g.ball.isEnlarged
                g.level.powerUps).1 } } := by
        unfold Game.powerUpStep Main.checkPowerUpCollisions
        dsimp only
        rw [hr]
        dsimp only
        simp only [hf, if_true]
      rw [heq]
      exact ⟨rfl, rfl, rfl, rfl, rfl⟩
    · have heq : Game.powerUpStep now g =
          { (Game.addScore 50 (Game.applyPowerUp now k
              { g with level := { g.level with
                  powerUps := (Main.collectPowerUps g.ball.meshPos g.ball.isEnlarged
                    g.level.powerUps).1 } })) with
              flags := { g.flags with powerUpCollected := true },
              clearPowerUpFlagAt := some (now + 0.5) } := by
        unfold Game.powerUpStep Main.checkPowerUpCollisions
        dsimp only
        rw [hr]
        dsimp only
        simp only [hf, Bool.false_eq_true, if_false]
      rw [heq]
      obtain ⟨k1, k2, k3, k4, k5⟩ := applyPowerUp_keeps now k
        { g with level := { g.level with
            powerUps := (Main.collectPowerUps g.ball.meshPos g.ball.isEnlarged
              g.level.powerUps).1 } }
      unfold Game.addScore
      refine ⟨k1, k2, k3, k4, ?_⟩
      rw [k5]

/-- The lethal-ground check does nothing when its one-shot flag is set or
the ball body is outside the ground band. -/
lemma ground_noop (now : ℚ) (h : Game.GameState)
    (hc : h.flags.groundContact = true ∨
      ¬(h.ball.bodyPos.y < 0.2 ∧ -1 < h.ball.bodyPos.y)) :
    Game.checkGroundContact now h = h := by
  unfold Game.checkGroundContact
  split_ifs with f1 f2 f3 <;> try rfl
  exfalso
  rcases hc with hc | hc
  · exact f1 hc
  · exact hc f2

/-- The lethal-ground check drops at most one life and leaves the respawn
point and the checkpoint entities alone. -/
lemma ground_fields (now : ℚ) (h : Game.GameState) :
    ((Game.checkGroundContact now h).lives = h.lives ∨
      (Game.checkGroundContact now h).lives = h.lives - 1) ∧
    (Game.checkGroundContact now h).ball.checkpoint = h.ball.checkpoint ∧
    (Game.checkGroundContact now h).level.checkpoints = h.level.checkpoints := by
  unfold Game.checkGroundContact
  split_ifs with f1 f2 f3 <;> try exact ⟨Or.inl rfl, rfl, rfl⟩
  obtain ⟨hl1, hlev, hcp, -, -⟩ := loseLife_spec h
  exact ⟨Or.inr hl1, hcp, by rw [hlev]⟩

/-- The composed fall + lethal-ground tail of `checkCollisions` drops at
most one life (their guards are mutually exclusive, and after a respawn
the ball sits at the — high enough — checkpoint). -/
lemma tail_bound (now : ℚ) (g : Game.GameState) (hcp : 1 ≤ g.ball.checkpoint.y) :
    g.lives - 1 ≤ (Game.checkGroundContact now (Game.fallStep g)).lives ∧
    (Game.checkGroundContact now (Game.fallStep g)).lives ≤ g.lives ∧
    (Game.checkGroundContact now (Game.fallStep g)).ball.checkpoint = g.ball.checkpoint ∧
    (Game.checkGroundContact now (Game.fallStep g)).level.checkpoints = g.level.checkpoints := by
  by_cases hf : g.ball.bodyPos.y < -10
  · have hfs : Game.fallStep g = Game.loseLife g := by
      unfold Game.fallStep
      rw [if_pos hf]
    rw [hfs]
    obtain ⟨hl1, hlev, hcp', hgt, hle⟩ := loseLife_spec g
    have hnoop : Game.checkGroundContact now (Game.loseLife g) = Game.loseLife g := by
      apply ground_noop
      right
      by_cases hg2 : 1 < g.lives
      · obtain ⟨-, hb⟩ := hgt hg2
        rw [hb]
        rintro ⟨hb1, -⟩
        linarith
      · obtain ⟨-, hbeq⟩ := hle (by omega)
        rw [hbeq]
        rintro ⟨-, hb2⟩
        linarith
    rw [hnoop]
    exact ⟨by omega, by omega, hcp', by rw [hlev]⟩
  · have hfs : Game.fallStep g = g := by
      unfold Game.fallStep
      rw [if_neg hf]
    rw [hfs]
    obtain ⟨hor, hc, hch⟩ := ground_fields now g
    exact ⟨by rcases hor with h | h <;> omega, by rcases hor with h | h <;> omega, hc, hch⟩

/-- The whole `checkCollisions` pass, entered with at least one life and a
sane checkpoint configuration, cannot push lives below −1 (the obstacle
check can decrement once, the fall/ground tail at most once more) and
keeps the checkpoint configuration sane. -/
lemma checkCollisions_bound (now : ℚ) (g : Game.GameState)
    (hl : 1 ≤ g.lives) (hcpY : 1 ≤ g.ball.checkpoint.y)
    (hcps : ∀ c ∈ g.level.checkpoints, c.position.y = 1) :
    -1 ≤ (Game.checkCollisions now g).lives ∧
    1 ≤ (Game.checkCollisions now g).ball.checkpoint.y ∧
    (∀ c ∈ (Game.checkCollisions now g).level.checkpoints, c.position.y = 1) := by
  unfold Game.checkCollisions
  obtain ⟨a1, a2, a3, a4⟩ := obstacleStep_fields g
  obtain ⟨b1, b2, b3, b4⟩ := hoopStep_keeps (Game.obstacleStep g)
  obtain ⟨c1, c2, c3, c4⟩ := checkpointStep_keeps now (Game.hoopStep (Game.obstacleStep g))
  obtain ⟨d1, d2, d3, d4, d5⟩ :=
    powerUpStep_keeps now (Game.checkpointStep now (Game.hoopStep (Game.obstacleStep g)))
  have hcpsA : ∀ c ∈ (Game.obstacleStep g).level.checkpoints, c.position.y = 1 := by
    rw [a4]; exact hcps
  have hcpsB : ∀ c ∈ (Game.hoopStep (Game.obstacleStep g)).level.checkpoints,
      c.position.y = 1 := by
    rw [b4]; exact hcpsA
  obtain ⟨c4a, c4b⟩ := c4 hcpsB
  have hcpB : 1 ≤ (Game.hoopStep (Game.obstacleStep g)).ball.checkpoint.y := by
    rw [b3, a3]; exact hcpY
  have hcpC := c4b hcpB
  have hcpD : 1 ≤ (Game.powerUpStep now (Game.checkpointStep now
      (Game.hoopStep (Game.obstacleStep g)))).ball.checkpoint.y := by
    rw [d4]; exact hcpC
  have hcpsD : ∀ c ∈ (Game.powerUpStep now (Game.checkpointStep now
      (Game.hoopStep (Game.obstacleStep g)))).level.checkpoints, c.position.y = 1 := by
    rw [d5]; exact c4a
  obtain ⟨t1, t2, t3, t4⟩ := tail_bound now
    (Game.powerUpStep now (Game.checkpointStep now (Game.hoopStep (Game.obstacleStep g)))) hcpD
  refine ⟨?_, ?_, ?_⟩
  · have hd : (Game.powerUpStep now (Game.checkpointStep now
        (Game.hoopStep (Game.obstacleStep g)))).lives = (Game.obstacleStep g).lives := by
      rw [d1, c1, b1]
    omega
  · rw [t3]; exact hcpD
  · intro c hc
    rw [t4] at hc
    exact hcpsD c hc

/-- Source `checkGameConditions` never changes lives, the ball or the checkpoint
entities, and guarantees that exhausted lives stop the loop. -/
lemma checkGameConditions_fields (now : ℚ) (g : Game.GameState) :
    (Game.checkGameConditions now g).lives = g.lives ∧
    (Game.checkGameConditions now g).ball = g.ball ∧
    (Game.checkGameConditions now g).level.checkpoints = g.level.checkpoints ∧
    ((Game.checkGameConditions now g).lives ≤ 0 →
      (Game.checkGameConditions now g).isRunning = false) := by
  unfold Game.checkGameConditions Game.completeLevel Game.addScore Game.gameOver
  dsimp only
  split_ifs with h1 h2 h3 <;>
    first
    | exact ⟨rfl, rfl, rfl, fun _ => rfl⟩
    | exact ⟨rfl, rfl, rfl, fun hle => absurd hle (by assumption)⟩

/-- The checkpoint-flag clearing callback touches only the flag and its
handle. -/
lemma fireCheckpointFlagClear_keeps (now : ℚ) (g : Game.GameState) :
    (Game.fireCheckpointFlagClear now g).lives = g.lives ∧
    (Game.fireCheckpointFlagClear now g).isRunning = g.isRunning ∧
    (Game.fireCheckpointFlagClear now g).ball = g.ball ∧
    (Game.fireCheckpointFlagClear now g).level = g.level := by
  rcases h : g.clearCheckpointFlagAt with _ | e
  · simp [Game.fireCheckpointFlagClear, h]
  · simp only [Game.fireCheckpointFlagClear, h]
    split_ifs <;> exact ⟨rfl, rfl, rfl, rfl⟩

/-- The power-up-flag clearing callback touches only the flag and its
handle. -/
lemma firePowerUpFlagClear_keeps (now : ℚ) (g : Game.GameState) :
    (Game.firePowerUpFlagClear now g).lives = g.lives ∧
    (Game.firePowerUpFlagClear now g).isRunning = g.isRunning ∧
    (Game.firePowerUpFlagClear now g).ball = g.ball ∧
    (Game.firePowerUpFlagClear now g).level = g.level := by
  rcases h : g.clearPowerUpFlagAt with _ | e
  · simp [Game.firePowerUpFlagClear, h]
  · simp only [Game.firePowerUpFlagClear, h]
    split_ifs <;> exact ⟨rfl, rfl, rfl, rfl⟩

/-- The ground-flag clearing callback touches only the flag and its
handle. -/
lemma fireGroundFlagClear_keeps (now : ℚ) (g : Game.GameState) :
    (Game.fireGroundFlagClear now g).lives = g.lives ∧
    (Game.fireGroundFlagClear now g).isRunning = g.isRunning ∧
    (Game.fireGroundFlagClear now g).ball = g.ball ∧
    (Game.fireGroundFlagClear now g).level = g.level := by
  rcases h : g.clearGroundFlagAt with _ | e
  · simp [Game.fireGroundFlagClear, h]
  · simp only [Game.fireGroundFlagClear, h]
    split_ifs <;> exact ⟨rfl, rfl, rfl, rfl⟩

/-- The level-advance callback keeps lives and the loop flag, and keeps
the checkpoint configuration sane (it reloads the fixed layout and resets
the ball's respawn point to the spawn). -/
lemma fireLevelAdvance_fields (now : ℚ) (g : Game.GameState) :
    (Game.fireLevelAdvance now g).lives = g.lives ∧
    (Game.fireLevelAdvance now g).isRunning = g.isRunning ∧
    (1 ≤ g.ball.checkpoint.y → 1 ≤ (Game.fireLevelAdvance now g).ball.checkpoint.y) ∧
    ((∀ c ∈ g.level.checkpoints, c.position.y = 1) →
      ∀ c ∈ (Game.fireLevelAdvance now g).level.checkpoints, c.position.y = 1) := by
  rcases h : g.levelAdvanceAt with _ | e
  · simp [Game.fireLevelAdvance, h]
  · simp only [Game.fireLevelAdvance, h]
    split_ifs with hd
    · refine ⟨rfl, rfl, fun _ => ?_, fun _ => ?_⟩
      · show (1 : ℚ) ≤ (Part0.reset g.ball).checkpoint.y
        rw [reset_checkpoint]
        norm_num [Part0.initialPosition]
      · show ∀ c ∈ (Main.loadLevel (g.currentLevel + 1) g.level).checkpoints, c.position.y = 1
        rw [loadLevel_const]
        intro c hc
        have : c = (⟨⟨8, 1, 0⟩, false⟩ : Main.CheckpointE) := by
          simpa [Main.createBasicLevel, Main.initLevel] using hc
        rw [this]
    · exact ⟨rfl, rfl, fun hy => hy, fun hc => hc⟩

/-- Source `advanceTimers` keeps lives and the loop flag and keeps the checkpoint
configuration sane. -/
lemma advanceTimers_fields (now : ℚ) (g : Game.GameState) :
    (Game.advanceTimers now g).lives = g.lives ∧
    (Game.advanceTimers now g).isRunning = g.isRunning ∧
    (1 ≤ g.ball.checkpoint.y → 1 ≤ (Game.advanceTimers now g).ball.checkpoint.y) ∧
    ((∀ c ∈ g.level.checkpoints, c.position.y = 1) →
      ∀ c ∈ (Game.advanceTimers now g).level.checkpoints, c.position.y = 1) := by
  unfold Game.advanceTimers
  obtain ⟨q1, q2, q3, q4⟩ := fireCheckpointFlagClear_keeps now
    { g with ball := Part0.fireSpeedTimer now (Part0.fireAntiGravTimer now g.ball) }
  obtain ⟨r1, r2, r3, r4⟩ := firePowerUpFlagClear_keeps now
    (Game.fireCheckpointFlagClear now
      { g with ball := Part0.fireSpeedTimer now (Part0.fireAntiGravTimer now g.ball) })
  obtain ⟨s1, s2, s3, s4⟩ := fireGroundFlagClear_keeps now
    (Game.firePowerUpFlagClear now (Game.fireCheckpointFlagClear now
      { g with ball := Part0.fireSpeedTimer now (Part0.fireAntiGravTimer now g.ball) }))
  obtain ⟨u1, u2, u3, u4⟩ := fireLevelAdvance_fields now
    (Game.fireGroundFlagClear now
      (Game.firePowerUpFlagClear now (Game.fireCheckpointFlagClear now
        { g with ball := Part0.fireSpeedTimer now (Part0.fireAntiGravTimer now g.ball) })))
  have hbcp : (Part0.fireSpeedTimer now (Part0.fireAntiGravTimer now g.ball)).checkpoint
      = g.ball.checkpoint := by
    rw [(fireSpeedTimer_keeps now (Part0.fireAntiGravTimer now g.ball)).2,
      (fireAntiGravTimer_keeps now g.ball).2]
  refine ⟨?_, ?_, ?_, ?_⟩
  · rw [u1, s1, r1, q1]
  · rw [u2, s2, r2, q2]
  · intro hy
    apply u3
    rw [s3, r3, q3]
    show (1 : ℚ) ≤ (Part0.fireSpeedTimer now (Part0.fireAntiGravTimer now g.ball)).checkpoint.y
    rw [hbcp]
    exact hy
  · intro hcs
    apply u4
    rw [s4, r4, q4]
    exact hcs

/-- Mesh sync does not touch the checkpoint entities. -/
lemma syncObstacleMeshes_checkpoints (s : Main.LevelState) :
    (Main.syncObstacleMeshes s).checkpoints = s.checkpoints := rfl

/-- Source `Level.update` does not touch the checkpoint entities. -/
lemma levelUpdate_checkpoints (dt : ℚ) (s : Main.LevelState) :
    (Main.levelUpdate dt s).checkpoints = s.checkpoints := rfl

/-- The inductive frame invariant: lives never below −1, a live loop only
with at least one life, the respawn point at height ≥ 1, every checkpoint
entity at height 1. -/
def livesInv (g : Game.GameState) : Prop :=
  -1 ≤ g.lives ∧ (g.isRunning = true → 1 ≤ g.lives) ∧
  1 ≤ g.ball.checkpoint.y ∧ ∀ c ∈ g.level.checkpoints, c.position.y = 1

/-- The gameplay path of a frame preserves the invariant. -/
lemma runningFrame_inv (inp : Game.FrameIn) (g0 : Game.GameState)
    (hrun : g0.isRunning = true) (hinv : livesInv g0) :
    livesInv (Game.runningFrame inp g0) := by
  obtain ⟨h1, h2, h3, h4⟩ := hinv
  have hl : 1 ≤ g0.lives := h2 hrun
  unfold Game.runningFrame
  dsimp only
  obtain ⟨p1, p2, p3⟩ := checkCollisions_bound inp.now
    { g0 with
      physicsSteps := g0.physicsSteps + 1,
      ball := { g0.ball with bodyPos := inp.ballBodyPos,
                             meshPos := inp.ballMeshPos,
                             velocity := inp.ballVel },
      level := Main.levelUpdate (min inp.dtRaw 0.1) (Main.syncObstacleMeshes g0.level) }
    hl h3
    (by rw [levelUpdate_checkpoints, syncObstacleMeshes_checkpoints]; exact h4)
  obtain ⟨c1, c2, c3, c4⟩ := checkGameConditions_fields inp.now
    (Game.checkCollisions inp.now
      { g0 with
        physicsSteps := g0.physicsSteps + 1,
        ball := { g0.ball with bodyPos := inp.ballBodyPos,
                               meshPos := inp.ballMeshPos,
                               velocity := inp.ballVel },
        level := Main.levelUpdate (min inp.dtRaw 0.1) (Main.syncObstacleMeshes g0.level) })
  have hcc : livesInv (Game.checkGameConditions inp.now
      (Game.checkCollisions inp.now
        { g0 with
          physicsSteps := g0.physicsSteps + 1,
          ball := { g0.ball with bodyPos := inp.ballBodyPos,
                                 meshPos := inp.ballMeshPos,
                                 velocity := inp.ballVel },
          level := Main.levelUpdate (min inp.dtRaw 0.1)
            (Main.syncObstacleMeshes g0.level) })) := by
    refine ⟨?_, ?_, ?_, ?_⟩
    · rw [c1]
      exact p1
    · intro hR
      by_contra hlt
      have hle := c4 (by omega)
      rw [hle] at hR
      exact absurd hR (by simp)
    · rw [c2]
      exact p2
    · intro c hc
      rw [c3] at hc
      exact p3 c hc
  exact ⟨hcc.1, hcc.2.1, hcc.2.2.1, hcc.2.2.2⟩

/-- Any single frame tick preserves the invariant. -/
lemma gameLoopStep_inv (inp : Game.FrameIn) (g : Game.GameState)
    (h : livesInv g) : livesInv (Game.gameLoopStep inp g) := by
  obtain ⟨h1, h2, h3, h4⟩ := h
  obtain ⟨a1, a2, a3, a4⟩ := advanceTimers_fields inp.now g
  have hinv0 : livesInv (Game.advanceTimers inp.now g) := by
    refine ⟨by rw [a1]; exact h1, ?_, a3 h3, a4 h4⟩
    intro hr
    rw [a1]
    exact h2 (by rw [← a2]; exact hr)
  unfold Game.gameLoopStep
  dsimp only
  split_ifs with w1 w2 w3
  · exact ⟨h1, h2, h3, h4⟩
  · obtain ⟨i1, i2, i3, i4⟩ := hinv0
    exact ⟨i1, i2, i3, i4⟩
  · exact hinv0
  · have hrun : (Game.advanceTimers inp.now g).isRunning = true := by
      rcases Bool.eq_false_or_eq_true (Game.advanceTimers inp.now g).isRunning with hb | hb
      · exact hb
      · exact absurd (by rw [hb]; rfl) w2
    exact runningFrame_inv inp (Game.advanceTimers inp.now g) hrun hinv0

/-- The freshly started session satisfies the invariant. -/
lemma livesInv_start : livesInv (Game.start Game.initGame) := by
  refine ⟨by decide, fun _ => by decide, by norm_num [Game.start, Game.initGame, Part0.initBall], ?_⟩
  rw [show (Game.start Game.initGame).level = Main.loadLevel 1 Main.initLevel from rfl,
    loadLevel_const]
  intro c hc
  have : c = (⟨⟨8, 1, 0⟩, false⟩ : Main.CheckpointE) := by
    simpa [Main.createBasicLevel, Main.initLevel] using hc
  rw [this]

/-- Any schedule of frame ticks preserves the invariant. -/
lemma runFrames_inv (inps : List Game.FrameIn) :
    ∀ g : Game.GameState, livesInv g → livesInv (Game.runFrames inps g) := by
  induction inps with
  | nil => exact fun g h => h
  | cons i rest ih =>
    exact fun g h => ih (Game.gameLoopStep i g) (gameLoopStep_inv i g h)

/-- C4 (amended): from the fresh session (lives = 3), no schedule of frame
ticks can drive lives below −1; lives CAN reach −1 (see the
counterexample) but only in the very pass that triggers game over, so
whenever lives is negative the loop is already stopped.  At most two
lose-life triggers can fire in one `checkCollisions` pass (the obstacle
check, plus one of the mutually exclusive fall / lethal-ground checks),
and after a mid-pass respawn the ball sits at its checkpoint, out of both
danger bands. -/
theorem lives_bounded_below (inputs : List Game.FrameIn) :
    -1 ≤ (Game.runFrames inputs (Game.start Game.initGame)).lives ∧
    ((Game.runFrames inputs (Game.start Game.initGame)).lives < 0 →
      (Game.runFrames inputs (Game.start Game.initGame)).isRunning = false) := by
  obtain ⟨h1, h2, -, -⟩ := runFrames_inv inputs (Game.start Game.initGame) livesInv_start
  refine ⟨h1, fun hneg => ?_⟩
  rcases Bool.eq_false_or_eq_true
    (Game.runFrames inputs (Game.start Game.initGame)).isRunning with hb | hb
  · exact absurd (h2 hb) (by omega)
  · exact hb

/-- Witness for `lives_bounded_below` at the three-frame double-trigger
schedule: lives is negative there, and indeed the loop is stopped. -/
theorem lives_bounded_below_witness :
    (Game.runFrames [badFrame 1, badFrame 2, badFrame 3]
      (Game.start Game.initGame)).isRunning = false :=
  (lives_bounded_below [badFrame 1, badFrame 2, badFrame 3]).2
    (by rw [show Game.start Game.initGame = gStart from rfl, runFrames_bad]; decide)
